import Mathlib

/-!
# SIRA — recommendation engine and conversation-session coupling

A shallow embedding, in Lean 4, of the core of the SIRA backend
(`src/backend/app`): query construction (`query_service.py`), staged
retrieval with constraint relaxation (`rag_service.py`), prompt assembly
and structured extraction (`prompt_service.py`), the synchronous and
streaming recommendation pipelines (`recommendation_service.py`), and the
conversation-session layer (`conversation_service.py`,
`conversation_repository.py`, `conversational_ai_service.py`).

Modelling conventions:
* Python strings are `List Char`; Python `None`-able attributes are
  `Option`; Python truthiness is made explicit (`None`, `""`, `0`, `[]`
  and `{}` are falsy).
* SQLAlchemy rows are Lean structures; the backing store is an explicit
  `DB` record of row lists; a commit is a functional update of that
  record.  UUID primary keys are modelled as fresh natural numbers drawn
  from the owning table's length.
* The external collaborators (the Pinecone vector search, the Mistral
  chat-completion client, and the wall clock `datetime.utcnow`) are
  parameters gathered in an `Env` record; an exception raised by a
  collaborator is an `Except.error` result.
* Raised Python exceptions are values of `PyError`; a function that can
  raise returns `Except PyError α` together with the store it leaves
  behind.
-/

namespace SIRA

/-- Python strings, modelled as lists of characters. -/
abbrev PyStr := List Char

/-- JSON values as handled by `json.loads` / `json.dumps`.
Model restriction: JSON numbers are integers (the structured blocks this
system emits and parses carry integer arrays); the parser model rejects
fractional and exponent number syntax, and string escapes are limited to
the single-character escapes (no `\uXXXX`). -/
inductive Json where
  | null
  | bool (b : Bool)
  | num (n : Int)
  | str (s : PyStr)
  | arr (elems : List Json)
  | obj (fields : List (PyStr × Json))

mutual

/-- Decidable equality on `Json` (the automatic derivation does not handle
the nested occurrence of `Json` under `List`, so it is spelt out). -/
def Json.decEq : (a b : Json) → Decidable (a = b)
  | .null, .null => isTrue rfl
  | .null, .bool _ => isFalse nofun
  | .null, .num _ => isFalse nofun
  | .null, .str _ => isFalse nofun
  | .null, .arr _ => isFalse nofun
  | .null, .obj _ => isFalse nofun
  | .bool _, .null => isFalse nofun
  | .bool a, .bool b =>
    if h : a = b then isTrue (by rw [h]) else isFalse (fun he => h (Json.bool.inj he))
  | .bool _, .num _ => isFalse nofun
  | .bool _, .str _ => isFalse nofun
  | .bool _, .arr _ => isFalse nofun
  | .bool _, .obj _ => isFalse nofun
  | .num _, .null => isFalse nofun
  | .num _, .bool _ => isFalse nofun
  | .num a, .num b =>
    if h : a = b then isTrue (by rw [h]) else isFalse (fun he => h (Json.num.inj he))
  | .num _, .str _ => isFalse nofun
  | .num _, .arr _ => isFalse nofun
  | .num _, .obj _ => isFalse nofun
  | .str _, .null => isFalse nofun
  | .str _, .bool _ => isFalse nofun
  | .str _, .num _ => isFalse nofun
  | .str a, .str b =>
    if h : a = b then isTrue (by rw [h]) else isFalse (fun he => h (Json.str.inj he))
  | .str _, .arr _ => isFalse nofun
  | .str _, .obj _ => isFalse nofun
  | .arr _, .null => isFalse nofun
  | .arr _, .bool _ => isFalse nofun
  | .arr _, .num _ => isFalse nofun
  | .arr _, .str _ => isFalse nofun
  | .arr a, .arr b =>
    match Json.decEqArr a b with
    | isTrue h => isTrue (by rw [h])
    | isFalse h => isFalse (fun he => h (Json.arr.inj he))
  | .arr _, .obj _ => isFalse nofun
  | .obj _, .null => isFalse nofun
  | .obj _, .bool _ => isFalse nofun
  | .obj _, .num _ => isFalse nofun
  | .obj _, .str _ => isFalse nofun
  | .obj _, .arr _ => isFalse nofun
  | .obj a, .obj b =>
    match Json.decEqObj a b with
    | isTrue h => isTrue (by rw [h])
    | isFalse h => isFalse (fun he => h (Json.obj.inj he))

def Json.decEqArr : (a b : List Json) → Decidable (a = b)
  | [], [] => isTrue rfl
  | [], _ :: _ => isFalse nofun
  | _ :: _, [] => isFalse nofun
  | a :: as, b :: bs =>
    match Json.decEq a b with
    | isFalse h => isFalse (fun he => h (List.cons.inj he).1)
    | isTrue h1 =>
      match Json.decEqArr as bs with
      | isTrue h2 => isTrue (by rw [h1, h2])
      | isFalse h => isFalse (fun he => h (List.cons.inj he).2)

def Json.decEqObj : (a b : List (PyStr × Json)) → Decidable (a = b)
  | [], [] => isTrue rfl
  | [], _ :: _ => isFalse nofun
  | _ :: _, [] => isFalse nofun
  | (k, v) :: as, (k2, v2) :: bs =>
    if hk : k = k2 then
      match Json.decEq v v2 with
      | isFalse h => isFalse (fun he => h (congrArg Prod.snd (List.cons.inj he).1))
      | isTrue h1 =>
        match Json.decEqObj as bs with
        | isTrue h2 => isTrue (by rw [hk, h1, h2])
        | isFalse h => isFalse (fun he => h (List.cons.inj he).2)
    else isFalse (fun he => hk (congrArg Prod.fst (List.cons.inj he).1))

end

instance : DecidableEq Json := Json.decEq

/-- Python truthiness of an optional string: `None` and `""` are falsy. -/
def truthyStr : Option PyStr → Bool
  | none => false
  | some s => !s.isEmpty

/-- Python truthiness of an optional list (ARRAY column): `None` and `[]` are falsy. -/
def truthyList : Option (List PyStr) → Bool
  | none => false
  | some l => !l.isEmpty

/-- Python truthiness of an optional float (modelled as `Rat`): `None` and `0.0` are falsy. -/
def truthyRat : Option Rat → Bool
  | none => false
  | some r => r != 0

/-- Python truthiness of an optional integer: `None` and `0` are falsy. -/
def truthyInt : Option Int → Bool
  | none => false
  | some n => n != 0

/-! ## Data model (`models/profile.py`) -/

/-- One row of `subject_grades` (`models/profile.py`, class SubjectGrade). -/
structure SubjectGrade where
  subject_name : Option PyStr
  grade : Option Rat
  weight : Option Rat
deriving DecidableEq

/-- One row of `academic_records` (`models/profile.py`, class AcademicRecord),
with its `subject_grades` relationship inlined. -/
structure AcademicRecord where
  current_status : Option PyStr
  current_institution : Option PyStr
  current_field : Option PyStr
  gpa : Option Rat
  transcript_url : Option PyStr
  language_preference : Option PyStr
  subject_grades : List SubjectGrade
deriving DecidableEq

/-- One row of `student_preferences` (`models/profile.py`, class StudentPreferences). -/
structure StudentPreferences where
  favorite_subjects : Option (List PyStr)
  disliked_subjects : Option (List PyStr)
  soft_skills : Option (List PyStr)
  hobbies : Option (List PyStr)
  geographic_preference : Option PyStr
  budget_range_min : Option Int
  budget_range_max : Option Int
  career_goals : Option PyStr
deriving DecidableEq

/-- One row of `profiles` (`models/profile.py`, class Profile), with its
one-to-one `academic_record` and `preferences` relationships inlined. -/
structure Profile where
  id : Nat
  user_id : Nat
  profile_name : PyStr
  status : PyStr
  academic_record : Option AcademicRecord
  preferences : Option StudentPreferences
deriving DecidableEq

/-! ## Query construction (`services/query_service.py`) -/

/-- The `status_map` lookup of `profile_to_query`; `dict.get(key, "")`
semantics: an unknown status yields the empty string. -/
def status_map (s : PyStr) : PyStr :=
  if s = "high_school".toList then "for high school graduates".toList
  else if s = "undergrad".toList then "for undergraduate students".toList
  else if s = "career_switcher".toList then "for career transition".toList
  else []

/-- `", ".join(l)` etc. -/
def joinSep (sep : PyStr) (l : List PyStr) : PyStr :=
  List.intercalate sep l

/-- `query_service.profile_to_query`: assemble the semantic search query,
appending each part exactly when the Python condition is truthy, then
`" ".join(filter(None, query_parts))`, falling back to the generic phrase. -/
def profile_to_query (profile : Profile) : PyStr :=
  let parts1 : List PyStr :=
    match profile.academic_record with
    | none => []
    | some ar =>
      (if truthyStr ar.current_field then
        ["Programs in ".toList ++ ar.current_field.getD []] else [])
      ++ (if truthyStr ar.current_status then
        [status_map (ar.current_status.getD [])] else [])
  let parts2 : List PyStr :=
    match profile.preferences with
    | none => []
    | some prefs =>
      (if truthyList prefs.favorite_subjects then
        ["with focus on ".toList ++ joinSep ", ".toList ((prefs.favorite_subjects.getD []).take 3)]
       else [])
      ++ (if truthyStr prefs.career_goals then
        ["leading to careers in ".toList ++ prefs.career_goals.getD []] else [])
  let query := joinSep " ".toList ((parts1 ++ parts2).filter (fun p => !p.isEmpty))
  if query.isEmpty then "academic programs suitable for students".toList else query

/-- The metadata filter dictionary built by `build_metadata_filters`.  The
Python function only ever inserts the four keys `min_gpa` (`$lte`),
`tuition_fee_mad` (`$lte`), `location` (`$eq`) and `language` (`$eq`), so the
dict is modelled as a record with one optional field per key. -/
structure MetadataFilters where
  min_gpa_lte : Option Rat
  tuition_fee_mad_lte : Option Int
  location_eq : Option PyStr
  language_eq : Option PyStr
deriving DecidableEq

/-- Python truthiness of the filter dict: falsy iff no key was inserted. -/
def MetadataFilters.isEmpty (f : MetadataFilters) : Bool :=
  f.min_gpa_lte.isNone && f.tuition_fee_mad_lte.isNone &&
    f.location_eq.isNone && f.language_eq.isNone

/-- The fixed allowed set of the language filter in `build_metadata_filters`. -/
def allowedLanguages : List PyStr :=
  ["French".toList, "English".toList, "Arabic".toList]

/-- `query_service.build_metadata_filters`: each filter key is inserted
exactly under the source's (truthiness) conditions.  Note that in the
source the `location` and `language` inserts — and the `tuition_fee_mad`
insert — all sit inside the `if profile.preferences:` block, even though
the language condition reads the academic record. -/
def build_metadata_filters (profile : Profile) : MetadataFilters :=
  let f0 : MetadataFilters := ⟨none, none, none, none⟩
  let f1 :=
    if profile.academic_record.isSome &&
        truthyRat ((profile.academic_record.map AcademicRecord.gpa).getD none) then
      { f0 with min_gpa_lte := (profile.academic_record.map AcademicRecord.gpa).getD none }
    else f0
  match profile.preferences with
  | none => f1
  | some prefs =>
    let f2 :=
      if truthyInt prefs.budget_range_max then
        { f1 with tuition_fee_mad_lte := prefs.budget_range_max }
      else f1
    let f3 :=
      if truthyStr prefs.geographic_preference then
        { f2 with location_eq := prefs.geographic_preference }
      else f2
    if profile.academic_record.isSome &&
        truthyStr ((profile.academic_record.map AcademicRecord.language_preference).getD none) then
      let lang := ((profile.academic_record.map AcademicRecord.language_preference).getD none).getD []
      if lang ∈ allowedLanguages then { f3 with language_eq := some lang } else f3
    else f3

/-- `query_service.enhance_query_with_context` with the default
`include_negative_signals=False` (the only call site, in
`rag_service.retrieve_relevant_programs`, passes no flag; the
negative-signal branch is a `pass` in the source either way). -/
def enhance_query_with_context (base_query : PyStr) (profile : Profile) : PyStr :=
  let parts1 : List PyStr :=
    match profile.preferences with
    | none => []
    | some prefs =>
      if truthyList prefs.soft_skills then
        ["Suitable for students with skills in ".toList
          ++ joinSep ", ".toList ((prefs.soft_skills.getD []).take 2) ++ ".".toList]
      else []
  let parts2 : List PyStr :=
    match profile.preferences with
    | none => []
    | some prefs =>
      if truthyList prefs.hobbies then
        ["Student interests include ".toList
          ++ joinSep ", ".toList ((prefs.hobbies.getD []).take 2) ++ ".".toList]
      else []
  joinSep " ".toList ([base_query] ++ parts1 ++ parts2)

/-! ## Raised exceptions and the collaborator environment -/

/-- The Python exceptions the embedded code raises.  The spec's error
taxonomy maps onto them: `ProfileNotFound` / `NoCandidatesFound` /
`NotFound` / `NotOwned` / `InvalidState` are `ValueError`s with the
respective messages, and `CompletionFailure` is the `RuntimeError` with
which the services wrap a failed Mistral call.  `detachedInstanceError`
is SQLAlchemy's `sqlalchemy.orm.exc.DetachedInstanceError`, raised by
any attribute access on an expired instance that is no longer bound to a
Session. -/
inductive PyError where
  | valueError (msg : PyStr)
  | runtimeError (msg : PyStr)
  | attributeError (msg : PyStr)
  | typeError (msg : PyStr)
  | detachedInstanceError (msg : PyStr)
deriving DecidableEq

/-- One match dict returned by `PineconeManager.query`: the consuming code
reads each key with `result.get(key, default)`, so every key is optional. -/
structure SearchResult where
  university : Option PyStr
  program_name : Option PyStr
  score : Option Rat
  metadata : Option (List (PyStr × Json))
  content : Option PyStr
deriving DecidableEq

/-- `schemas/recommendation.py` RetrievedProgram. -/
structure RetrievedProgram where
  university : PyStr
  program_name : PyStr
  score : Rat
  metadata : List (PyStr × Json)
  content : PyStr
deriving DecidableEq

/-- The external collaborators, as black boxes:
* `search` — `PineconeManager.query(query_text, filters, top_k)`;
* `complete` — `client.chat.complete(...)` on a (system, user) prompt pair,
  returning the response text or the raised exception's message;
* `chatComplete` — the same client called with a full (role, content)
  message list, as `conversational_ai_service` does;
* `now` — `datetime.utcnow()`, modelled as seconds on a linear clock
  (Python's naive UTC datetimes have no leap seconds, so one day is a
  fixed 86400 of these units). -/
structure Env where
  search : PyStr → Option MetadataFilters → Nat → List SearchResult
  complete : PyStr → PyStr → Except PyStr PyStr
  chatComplete : List (PyStr × PyStr) → Except PyStr PyStr
  now : Int

/-! ## Retrieval (`services/rag_service.py`) -/

/-- The `RetrievedProgram(...)` construction in
`rag_service.retrieve_relevant_programs` (step 4), with its
`result.get(key, default)` defaults. -/
def searchResultToProgram (r : SearchResult) : RetrievedProgram :=
  { university := r.university.getD "Unknown".toList
    program_name := r.program_name.getD "Unknown Program".toList
    score := r.score.getD 0
    metadata := r.metadata.getD []
    content := r.content.getD [] }

/-- `rag_service.retrieve_relevant_programs`.  The Python signature
defaults `enhance_query` to True; callers in this embedding pass the flag
explicitly.  `filters if filters else None`: an empty filter dict is
passed to Pinecone as None. -/
def retrieve_relevant_programs (env : Env) (profile : Profile) (top_k : Nat)
    (enhance_query : Bool) : List RetrievedProgram :=
  let base_query := profile_to_query profile
  let query_text :=
    if enhance_query then enhance_query_with_context base_query profile else base_query
  let filters := build_metadata_filters profile
  let results := env.search query_text (if filters.isEmpty then none else some filters) top_k
  results.map searchResultToProgram

/-- The inline `RetrievedProgram(...)` conversion of the `semantic_only`
branch of `retrieve_with_fallback`: note its default for a missing
`program_name` is "Unknown", unlike "Unknown Program" in
`retrieve_relevant_programs`. -/
def searchResultToProgramSemantic (r : SearchResult) : RetrievedProgram :=
  { university := r.university.getD "Unknown".toList
    program_name := r.program_name.getD "Unknown".toList
    score := r.score.getD 0
    metadata := r.metadata.getD []
    content := r.content.getD [] }

/-- The profile with the budget ceiling removed: `retrieve_with_fallback`
sets `profile.preferences.budget_range_max = None`, performs the tier-2
call, and restores the original value, so the tier-2 call sees exactly
this profile and the net mutation is nil. -/
def relaxBudget (profile : Profile) (prefs : StudentPreferences) : Profile :=
  { profile with preferences := some { prefs with budget_range_max := none } }

/-- `rag_service.retrieve_with_fallback`: tier 1 with all filters, tier 2
with the budget constraint relaxed (only attempted when
`profile.preferences and profile.preferences.budget_range_max` is truthy),
tier 3 with no filters at all; each later tier runs only when the earlier
one returned zero results. -/
def retrieve_with_fallback (env : Env) (profile : Profile) (top_k : Nat) :
    List RetrievedProgram × PyStr :=
  let programs := retrieve_relevant_programs env profile top_k true
  if !programs.isEmpty then (programs, "full_constraints".toList)
  else
    let tier2 : Option (List RetrievedProgram) :=
      match profile.preferences with
      | some prefs =>
        if truthyInt prefs.budget_range_max then
          let programs2 := retrieve_relevant_programs env (relaxBudget profile prefs) top_k true
          if !programs2.isEmpty then some programs2 else none
        else none
      | none => none
    match tier2 with
    | some programs2 => (programs2, "relaxed_budget".toList)
    | none =>
      let query_text := profile_to_query profile
      let results := env.search query_text none top_k
      (results.map searchResultToProgramSemantic, "semantic_only".toList)

/-! ## String primitives (Python `str` methods) -/

/-- Auxiliary scan for `str.find`: the first index (counting from `i`)
at which `sub` is a prefix of a suffix of the scanned list. -/
def findFrom (sub : PyStr) : PyStr → Nat → Option Nat
  | [], i => if sub.isEmpty then some i else none
  | c :: cs, i => if sub.isPrefixOf (c :: cs) then some i else findFrom sub cs (i + 1)

/-- `s.find(sub, start)`; `none` models the `-1` result. -/
def pyFind (s sub : PyStr) (start : Nat) : Option Nat :=
  findFrom sub (s.drop start) start

/-- The characters `str.strip()` removes (the ASCII whitespace set;
the unicode spaces Python would also strip never occur in this system). -/
def isPySpace (c : Char) : Bool :=
  c = ' ' || c = '\t' || c = '\n' || c = '\r' || c = Char.ofNat 11 || c = Char.ofNat 12

/-- `s.strip()`. -/
def pyStrip (s : PyStr) : PyStr :=
  ((s.dropWhile isPySpace).reverse.dropWhile isPySpace).reverse

/-! ## `json.loads` / `json.dumps` (model)

A recursive-descent parser over the character list, with a step budget
(`fuel`) that strictly decreases on every recursive call; the budget
`2 * length + 2` passed by `json_loads` dominates the parser's actual call
depth, every level of which consumes at least one character.  Model
restrictions (documented at `Json`): integer numbers only,
single-character string escapes only, and object members are kept in
order including duplicates. -/

/-- The whitespace `json.loads` skips between tokens. -/
def isJsonSpace (c : Char) : Bool :=
  c = ' ' || c = '\t' || c = '\n' || c = '\r'

/-- Skip inter-token whitespace. -/
def skipJsonWs (s : PyStr) : PyStr := s.dropWhile isJsonSpace

/-- Decode one string escape (`\"`, `\\`, `\/`, `\n`, `\t`, `\r`, `\b`, `\f`). -/
def escChar (c : Char) : Option Char :=
  if c = '"' then some '"'
  else if c = '\\' then some '\\'
  else if c = '/' then some '/'
  else if c = 'n' then some '\n'
  else if c = 't' then some '\t'
  else if c = 'r' then some '\r'
  else if c = 'b' then some (Char.ofNat 8)
  else if c = 'f' then some (Char.ofNat 12)
  else none

/-- Read a string body up to the closing quote, returning (content, rest). -/
def parseStringBody : PyStr → Option (PyStr × PyStr)
  | [] => none
  | '"' :: rest => some ([], rest)
  | '\\' :: e :: rest =>
    match escChar e with
    | some c => (parseStringBody rest).map (fun p => (c :: p.1, p.2))
    | none => none
  | c :: rest => (parseStringBody rest).map (fun p => (c :: p.1, p.2))

/-- Take a maximal run of decimal digits. -/
def takeDigits : PyStr → List Char × PyStr
  | [] => ([], [])
  | c :: rest =>
    if c.isDigit then
      let p := takeDigits rest
      (c :: p.1, p.2)
    else ([], c :: rest)

/-- Decimal digits to a natural number. -/
def digitsToNat (ds : List Char) : Nat :=
  ds.foldl (fun a c => a * 10 + (c.toNat - 48)) 0

/-- Parse the digits of a number (after an optional consumed minus sign);
fractional and exponent forms are rejected (model restriction). -/
def parseNumberTail (neg : Bool) (s : PyStr) : Option (Json × PyStr) :=
  let p := takeDigits s
  if p.1.isEmpty then none
  else
    match p.2 with
    | '.' :: _ => none
    | 'e' :: _ => none
    | 'E' :: _ => none
    | _ =>
      some (Json.num (if neg then -(digitsToNat p.1 : Int) else (digitsToNat p.1 : Int)), p.2)

mutual

/-- Parse one JSON value, returning it and the unconsumed rest. -/
def parseValue : Nat → PyStr → Option (Json × PyStr)
  | 0, _ => none
  | fuel + 1, s =>
    match skipJsonWs s with
    | [] => none
    | '{' :: rest => parseMembersStart fuel rest
    | '[' :: rest => parseElemsStart fuel rest
    | '"' :: rest => (parseStringBody rest).map (fun p => (Json.str p.1, p.2))
    | '-' :: rest => parseNumberTail true rest
    | c :: rest =>
      if "true".toList.isPrefixOf (c :: rest) then some (Json.bool true, rest.drop 3)
      else if "false".toList.isPrefixOf (c :: rest) then some (Json.bool false, rest.drop 4)
      else if "null".toList.isPrefixOf (c :: rest) then some (Json.null, rest.drop 3)
      else parseNumberTail false (c :: rest)

/-- Parse an array's contents after the opening bracket. -/
def parseElemsStart : Nat → PyStr → Option (Json × PyStr)
  | 0, _ => none
  | fuel + 1, s =>
    match skipJsonWs s with
    | ']' :: rest => some (Json.arr [], rest)
    | s2 =>
      match parseValue fuel s2 with
      | none => none
      | some (v, r) => parseElemsRest fuel [v] r

/-- Parse the remaining `, value` items of an array (`acc` is reversed). -/
def parseElemsRest : Nat → List Json → PyStr → Option (Json × PyStr)
  | 0, _, _ => none
  | fuel + 1, acc, s =>
    match skipJsonWs s with
    | ',' :: rest =>
      match parseValue fuel rest with
      | none => none
      | some (v, r) => parseElemsRest fuel (v :: acc) r
    | ']' :: rest => some (Json.arr acc.reverse, rest)
    | _ => none

/-- Parse an object's contents after the opening brace. -/
def parseMembersStart : Nat → PyStr → Option (Json × PyStr)
  | 0, _ => none
  | fuel + 1, s =>
    match skipJsonWs s with
    | '}' :: rest => some (Json.obj [], rest)
    | '"' :: rest =>
      match parseStringBody rest with
      | none => none
      | some (k, r) => parseMemberValue fuel [] k r
    | _ => none

/-- Parse `: value` after a member key (`acc` is reversed). -/
def parseMemberValue : Nat → List (PyStr × Json) → PyStr → PyStr → Option (Json × PyStr)
  | 0, _, _, _ => none
  | fuel + 1, acc, k, s =>
    match skipJsonWs s with
    | ':' :: rest =>
      match parseValue fuel rest with
      | none => none
      | some (v, r) => parseMembersRest fuel ((k, v) :: acc) r
    | _ => none

/-- Parse the remaining `, "key": value` members of an object. -/
def parseMembersRest : Nat → List (PyStr × Json) → PyStr → Option (Json × PyStr)
  | 0, _, _ => none
  | fuel + 1, acc, s =>
    match skipJsonWs s with
    | ',' :: rest =>
      match skipJsonWs rest with
      | '"' :: r2 =>
        match parseStringBody r2 with
        | none => none
        | some (k, r3) => parseMemberValue fuel acc k r3
      | _ => none
    | '}' :: rest => some (Json.obj acc.reverse, rest)
    | _ => none

end

/-- `json.loads` (model): parse one JSON value and require only whitespace
after it; `none` models a raised `JSONDecodeError`. -/
def json_loads (s : PyStr) : Option Json :=
  match parseValue (2 * s.length + 2) s with
  | some (v, rest) => if (skipJsonWs rest).isEmpty then some v else none
  | none => none

mutual

/-- `json.dumps` (model), default separators. -/
def Json.dump : Json → PyStr
  | .null => "null".toList
  | .bool true => "true".toList
  | .bool false => "false".toList
  | .num n => (toString n).toList
  | .str s => '"' :: Json.dumpStrBody s ++ ['"']
  | .arr elems => '[' :: Json.dumpElems elems ++ [']']
  | .obj fields => '{' :: Json.dumpFields fields ++ ['}']

/-- Escape a string body for `json.dumps`. -/
def Json.dumpStrBody : PyStr → PyStr
  | [] => []
  | c :: rest =>
    (if c = '"' then ['\\', '"']
     else if c = '\\' then ['\\', '\\']
     else if c = '\n' then ['\\', 'n']
     else if c = '\t' then ['\\', 't']
     else if c = '\r' then ['\\', 'r']
     else [c]) ++ Json.dumpStrBody rest

/-- Array items joined by `", "`. -/
def Json.dumpElems : List Json → PyStr
  | [] => []
  | [v] => Json.dump v
  | v :: rest => Json.dump v ++ ", ".toList ++ Json.dumpElems rest

/-- Object members joined by `", "`, keys and values joined by `": "`. -/
def Json.dumpFields : List (PyStr × Json) → PyStr
  | [] => []
  | [(k, v)] => '"' :: Json.dumpStrBody k ++ ['"'] ++ ": ".toList ++ Json.dump v
  | (k, v) :: rest =>
    '"' :: Json.dumpStrBody k ++ ['"'] ++ ": ".toList ++ Json.dump v
      ++ ", ".toList ++ Json.dumpFields rest

end

/-! ## Structured extraction (`services/prompt_service.py`) -/

/-- `prompt_service.parse_json_from_response`: locate the first
"```json" marker, the next "```" after the tag, slice between them,
strip, `json.loads`; a missing marker or a parse failure yields the empty
dict — the function is total and never raises. -/
def parse_json_from_response (response_text : PyStr) : Json :=
  let start_marker := "```json".toList
  let end_marker := "```".toList
  match pyFind response_text start_marker 0 with
  | none => Json.obj []
  | some idx =>
    let start_idx := idx + start_marker.length
    match pyFind response_text end_marker start_idx with
    | none => Json.obj []
    | some end_idx =>
      let json_str := pyStrip ((response_text.drop start_idx).take (end_idx - start_idx))
      match json_loads json_str with
      | some v => v
      | none => Json.obj []

/-! ## Prompt assembly (`services/prompt_service.py`) -/

/-- Decode a literal: `\x01` placeholders become the apostrophe
(codepoint 39), which cannot be written directly inside these literals. -/
def lit (s : String) : PyStr :=
  s.toList.map (fun c => if c = Char.ofNat 1 then Char.ofNat 39 else c)

/-- Python `str(int)`. -/
def intRepr (n : Int) : PyStr := (toString n).toList

/-- Python `str()` of a nonnegative count. -/
def natRepr (n : Nat) : PyStr := (toString n).toList

/-- Rendering of the `Rat`-modelled Python floats inside f-strings.
Model rendering: Lean's `Rat` notation stands in for Python float repr;
every use flows only into prompt text handed to the completion
collaborator, never into control flow or persisted comparisons. -/
def ratRepr (r : Rat) : PyStr := (toString r).toList

/-- The `"{:.2%}"` format: the value times 100 with two decimal places and
a trailing percent sign (rounding half up; Python's round-half-even on
binary floats is not reproduced — the text only flows into prompts). -/
def pctRepr (r : Rat) : PyStr :=
  let scaled : Int := (r * 10000 + 1 / 2).floor
  let whole := scaled / 100
  let frac := (scaled % 100).toNat
  intRepr whole ++ ['.'] ++ (if frac < 10 then ['0'] else []) ++ (toString frac).toList ++ ['%']

/-- Python `str()` of a JSON-derived value inside an f-string: strings
render bare, ints decimally, True/False/None as Python spells them;
containers render in dump form (model rendering — only flows into text). -/
def pyStrOfJson : Json → PyStr
  | .str s => s
  | .num n => intRepr n
  | .bool true => "True".toList
  | .bool false => "False".toList
  | .null => "None".toList
  | v => Json.dump v

/-- f-string rendering of an optional string attribute (`None` prints as "None"). -/
def showOptStr (o : Option PyStr) : PyStr := o.getD ("None".toList)

/-- f-string rendering of an optional float attribute. -/
def showOptRat (o : Option Rat) : PyStr :=
  match o with
  | some r => ratRepr r
  | none => "None".toList

/-- Python-dict lookup in a metadata map (`key in meta` / `meta[key]`). -/
def jsonLookup (m : List (PyStr × Json)) (k : PyStr) : Option Json :=
  (m.find? (fun kv => kv.1 = k)).map (fun kv => kv.2)

/-- `prompt_service.SYSTEM_PROMPT` (braces written as \x7b/\x7d and
apostrophes as \x01, per `lit`). -/
def SYSTEM_PROMPT : PyStr := lit "You are SIRA (Système Intelligent de Recommandation Académique), an expert academic advisor specializing in Moroccan and international university programs.

Your role is to provide highly personalized, data-driven academic orientation based on:
1. Student\x01s academic profile (grades, interests, constraints)
2. Retrieved program data from the knowledge base

### YOUR CONSTRAINTS:
- Use ONLY the provided ACADEMIC_CONTEXT for specific university details
- Base all recommendations on actual data from the retrieved programs
- If student\x01s grades are below typical requirements, suggest \"Bridge\" paths or accessible alternatives
- Be encouraging but realistic - if there\x01s a clear mismatch (e.g., hates Math but wants Engineering), point it out constructively
- Always cite your sources: Mention specific university and program names from the context

### RESPONSE STRUCTURE:
Your response MUST follow this exact structure:

1. **Summary Analysis** (2-3 sentences)
   - Briefly analyze the student\x01s academic strengths and interests
   - Highlight any notable patterns or concerns

2. **Top 3-5 Recommendations**
   For each recommendation, include:
   - **Program Name**: Full program title
   - **University**: Institution name
   - **Match Score**: Percentage (0-100%) based on alignment with profile
   - **Why it fits**: 2-3 sentences explaining the match
   - **Requirements**: Key admission requirements (GPA, subjects, tests)
   - **Tuition**: Annual cost in MAD
   - **Duration**: Program length

3. **The Roadmap** (Optional)
   - Brief 3-step timeline if applicable (e.g., Year 1-3: Bachelor, Year 4-5: Master)

4. **Visual Data** (REQUIRED - for Chart.js integration)
   At the end of your response, include EXACTLY this JSON block:
   ```json
   \x7b
     \"match_scores\": [80, 75, 70],
     \"program_names\": [\"Program 1\", \"Program 2\", \"Program 3\"],
     \"difficulty_levels\": [7, 8, 6],
     \"tuition_fees\": [50000, 80000, 30000]
   \x7d
   ```

### LANGUAGE:
- Respond in the student\x01s preferred language (French/English/Arabic)
- Default to French if not specified

### IMPORTANT:
- Do NOT invent programs or universities not in the provided context
- If no good matches exist, be honest and suggest alternative paths
- Consider budget constraints seriously - don\x01t recommend unaffordable programs without mentioning alternatives
"

/-- `prompt_service.format_profile_for_prompt`. -/
def format_profile_for_prompt (profile : Profile) : PyStr :=
  let base : List PyStr :=
    ["**Profile Name:** ".toList ++ profile.profile_name,
     "**Status:** ".toList ++ profile.status]
  let academic : List PyStr :=
    match profile.academic_record with
    | none => []
    | some ar =>
      ["\n**Academic Information:**".toList]
      ++ (if truthyStr ar.current_status then
            ["- Current Status: ".toList ++ ar.current_status.getD []] else [])
      ++ (if truthyStr ar.current_institution then
            ["- Institution: ".toList ++ ar.current_institution.getD []] else [])
      ++ (if truthyStr ar.current_field then
            ["- Field of Study: ".toList ++ ar.current_field.getD []] else [])
      ++ (if truthyRat ar.gpa then
            ["- GPA: ".toList ++ showOptRat ar.gpa ++ "/20".toList] else [])
      ++ (if truthyStr ar.language_preference then
            ["- Language Preference: ".toList ++ ar.language_preference.getD []] else [])
      ++ (if !ar.subject_grades.isEmpty then
            ["\n**Subject Grades:**".toList]
            ++ ar.subject_grades.map (fun g =>
                 "  - ".toList ++ showOptStr g.subject_name ++ ": ".toList
                   ++ showOptRat g.grade ++ "/20".toList)
          else [])
  let prefsPart : List PyStr :=
    match profile.preferences with
    | none => []
    | some prefs =>
      ["\n**Interests & Preferences:**".toList]
      ++ (if truthyList prefs.favorite_subjects then
            ["- Favorite Subjects: ".toList ++ joinSep ", ".toList (prefs.favorite_subjects.getD [])]
          else [])
      ++ (if truthyList prefs.disliked_subjects then
            ["- Disliked Subjects: ".toList ++ joinSep ", ".toList (prefs.disliked_subjects.getD [])]
          else [])
      ++ (if truthyList prefs.soft_skills then
            ["- Soft Skills: ".toList ++ joinSep ", ".toList (prefs.soft_skills.getD [])]
          else [])
      ++ (if truthyList prefs.hobbies then
            ["- Hobbies: ".toList ++ joinSep ", ".toList (prefs.hobbies.getD [])]
          else [])
      ++ (if truthyStr prefs.career_goals then
            ["- Career Goals: ".toList ++ prefs.career_goals.getD []] else [])
      ++ ["\n**Constraints:**".toList]
      ++ (if truthyStr prefs.geographic_preference then
            ["- Location Preference: ".toList ++ prefs.geographic_preference.getD []] else [])
      ++ (if truthyInt prefs.budget_range_min || truthyInt prefs.budget_range_max then
            ["- Budget Range: ".toList
              ++ (if truthyInt prefs.budget_range_min then
                    intRepr (prefs.budget_range_min.getD 0) else "0".toList)
              ++ " - ".toList
              ++ (if truthyInt prefs.budget_range_max then
                    intRepr (prefs.budget_range_max.getD 0) else "unlimited".toList)
              ++ " MAD/year".toList]
          else [])
  joinSep "\n".toList (base ++ academic ++ prefsPart)

/-- The per-program lines of `prompt_service.format_context_for_prompt`. -/
def contextLinesFor (idx : Nat) (program : RetrievedProgram) : List PyStr :=
  ["\n**Program ".toList ++ intRepr idx ++ ":**".toList,
   "- **University:** ".toList ++ program.university,
   "- **Program Name:** ".toList ++ program.program_name,
   "- **Relevance Score:** ".toList ++ pctRepr program.score]
  ++ (if !program.metadata.isEmpty then
        (match jsonLookup program.metadata ("tuition_fee_mad".toList) with
         | some v => ["- **Tuition:** ".toList ++ pyStrOfJson v ++ " MAD/year".toList]
         | none => [])
        ++ (match jsonLookup program.metadata ("min_gpa".toList) with
         | some v => ["- **Minimum GPA:** ".toList ++ pyStrOfJson v ++ "/20".toList]
         | none => [])
        ++ (match jsonLookup program.metadata ("language".toList) with
         | some v => ["- **Language:** ".toList ++ pyStrOfJson v]
         | none => [])
        ++ (match jsonLookup program.metadata ("degree_type".toList) with
         | some v => ["- **Degree Type:** ".toList ++ pyStrOfJson v]
         | none => [])
        ++ (match jsonLookup program.metadata ("duration_years".toList) with
         | some v => ["- **Duration:** ".toList ++ pyStrOfJson v ++ " years".toList]
         | none => [])
        ++ (match jsonLookup program.metadata ("field".toList) with
         | some v => ["- **Field:** ".toList ++ pyStrOfJson v]
         | none => [])
      else [])
  ++ (if !program.content.isEmpty then
        ["- **Description:** ".toList
          ++ (if program.content.length > 500 then program.content.take 500 ++ "...".toList
              else program.content)]
      else [])

/-- `prompt_service.format_context_for_prompt`. -/
def format_context_for_prompt (programs : List RetrievedProgram) : PyStr :=
  if programs.isEmpty then "No programs found matching the criteria.".toList
  else
    joinSep "\n".toList
      ((programs.enumFrom 1).foldr (fun p acc => contextLinesFor p.1 p.2 ++ acc) [])

/-- `prompt_service.create_user_prompt`. -/
def create_user_prompt (profile : Profile) (retrieved_programs : List RetrievedProgram) : PyStr :=
  lit "Please analyze the following student profile and provide personalized academic recommendations based on the retrieved program data.

### STUDENT PROFILE:
"
  ++ format_profile_for_prompt profile
  ++ lit "

### ACADEMIC CONTEXT (Retrieved Programs):
"
  ++ format_context_for_prompt retrieved_programs
  ++ lit "

### TASK:
Based on the student\x01s profile and the retrieved programs above, provide your top 3-5 recommendations following the response structure specified in your system prompt. Remember to include the JSON data block at the end for visualization.
"

/-! ## Persisted rows and the store -/

/-- One entry of the `retrieved_context` snapshot stored on a
Recommendation (the dicts built in `recommendation_service`, content
truncated to 500 characters). -/
structure ContextItem where
  university : PyStr
  program_name : PyStr
  score : Rat
  metadata : List (PyStr × Json)
  content : PyStr
deriving DecidableEq

/-- One row of `recommendations` (`models/recommendation.py`). -/
structure Recommendation where
  id : Nat
  profile_id : Nat
  session_id : Nat
  query : PyStr
  retrieved_context : List ContextItem
  ai_response : PyStr
  structured_data : Json
  feedback_rating : Option Int
  feedback_comment : Option PyStr
deriving DecidableEq

/-- One row of `conversation_sessions` (`models/conversation.py`). -/
structure ConversationSession where
  id : Nat
  user_id : Nat
  profile_id : Option Nat
  title : PyStr
  status : PyStr
  created_at : Int
  updated_at : Int
  last_message_at : Option Int
deriving DecidableEq

/-- One row of `conversation_messages` (`models/conversation.py`). -/
structure ConversationMessage where
  id : Nat
  session_id : Nat
  role : PyStr
  content : PyStr
  message_metadata : Option (List (PyStr × Json))
  created_at : Int
deriving DecidableEq

/-- The relational store.  Messages are append-only and stamped with the
repository's `utcnow`, so each table list is kept in insertion order. -/
structure DB where
  profiles : List Profile
  sessions : List ConversationSession
  messages : List ConversationMessage
  recommendations : List Recommendation
deriving DecidableEq

/-! ## Repositories -/

/-- `profile_repository.get_by_id`. -/
def getProfileById (db : DB) (pid : Nat) : Option Profile :=
  db.profiles.find? (fun p => p.id = pid)

/-- `conversation_repository.get_by_id` (the joinedloaded relationships
are recovered from the store on demand). -/
def getSessionById (db : DB) (sid : Nat) : Option ConversationSession :=
  db.sessions.find? (fun s => s.id = sid)

/-- A session's messages in `created_at` order (the insertion order of the
append-only table). -/
def sessionMessages (db : DB) (sid : Nat) : List ConversationMessage :=
  db.messages.filter (fun m => m.session_id = sid)

/-- `conversation_repository.get_recent_messages`: ORDER BY created_at
DESC LIMIT n, then reversed — the last n messages in chronological order. -/
def get_recent_messages (db : DB) (sid : Nat) (limit : Nat) : List ConversationMessage :=
  let msgs := sessionMessages db sid
  msgs.drop (msgs.length - limit)

/-- `conversation_repository.add_message`: insert the message and set the
session's `last_message_at` and `updated_at` to `utcnow`, in one commit. -/
def add_message (env : Env) (db : DB) (sid : Nat) (role content : PyStr)
    (message_metadata : Option (List (PyStr × Json))) : ConversationMessage × DB :=
  let msg : ConversationMessage :=
    { id := db.messages.length, session_id := sid, role := role, content := content,
      message_metadata := message_metadata, created_at := env.now }
  (msg,
   { db with
       messages := db.messages ++ [msg]
       sessions := db.sessions.map (fun s =>
         if s.id = sid then { s with last_message_at := some env.now, updated_at := env.now }
         else s) })

/-! ## Recommendation pipelines (`services/recommendation_service.py`) -/

/-- Whether the Sessions opened by db.py's `session_scope` expire loaded
instances on commit: the source opens them as `with Session(engine) as
session` with no flag, so SQLAlchemy's default `expire_on_commit=True`
applies. -/
def sessionExpireOnCommit : Bool := true

/-- The `DetachedInstanceError` message (the instance's memory address
and the error-code URL that SQLAlchemy appends are elided). -/
def detachedInstanceMsg : PyStr :=
  lit "Instance <Profile> is not bound to a Session; attribute refresh operation cannot proceed"

/-- Reading any attribute of the loaded profile after its
`session_scope` block has exited, as both pipelines do:
`recommendation_service.py` lines 82 and 193 call
`profile_to_query(profile)` — whose first step reads
`profile.academic_record` — right after the `with session_scope() as
db:` block.  That block's exit ran `session.commit()` (db.py), which
with `expire_on_commit` expired every attribute (including those the
`db.refresh(profile)` inside the block had just loaded), and the
`with Session(engine)` context then closed the session, detaching the
instance.  The attribute access therefore requires a refresh with no
bound session and raises `sqlalchemy.orm.exc.DetachedInstanceError`.
(Were `expire_on_commit` False, the already-loaded values would still be
readable and the `.ok` branch would apply.) -/
def readProfileAfterScope (profile : Profile) : Except PyError Profile :=
  if sessionExpireOnCommit then
    .error (.detachedInstanceError detachedInstanceMsg)
  else .ok profile

/-- The snapshot row stored for one retrieved program. -/
def toContextItem (p : RetrievedProgram) : ContextItem :=
  { university := p.university, program_name := p.program_name, score := p.score,
    metadata := p.metadata, content := p.content.take 500 }

/-- `RecommendationService._call_llm`: one blocking completion call
against the fixed system prompt; any exception the client raises is
re-raised as `RuntimeError("Failed to generate recommendation: ...")`. -/
def call_llm (env : Env) (user_prompt : PyStr) : Except PyError PyStr :=
  match env.complete SYSTEM_PROMPT user_prompt with
  | .ok text => .ok text
  | .error e => .error (.runtimeError ("Failed to generate recommendation: ".toList ++ e))

/-- `RecommendationService.generate_recommendation`.  Returns the raised
error or the saved row, together with the store the call leaves behind.
The row's UUID primary key is modelled as a counter fresh for the table.
When the profile is missing, the `ValueError` raised inside the scope is
re-raised by `session_scope`'s except clause; when it exists, the first
post-scope read of the detached expired profile (inside
`profile_to_query`, line 82) raises `DetachedInstanceError` — see
`readProfileAfterScope` — so the retrieval, completion and persistence
steps in the `.ok` branch below are unreachable in the source and in
this model; they are kept as the transcription of lines 82-133. -/
def generate_recommendation (env : Env) (db : DB) (profile_id session_id : Nat)
    (top_k : Nat) (use_fallback : Bool) : Except PyError Recommendation × DB :=
  match getProfileById db profile_id with
  | none =>
    (.error (.valueError ("Profile ".toList ++ intRepr profile_id ++ " not found".toList)), db)
  | some profile =>
    match readProfileAfterScope profile with
    | .error e => (.error e, db)
    | .ok profile =>
      let query_text := profile_to_query profile
      let programs :=
        if use_fallback then (retrieve_with_fallback env profile top_k).1
        else retrieve_relevant_programs env profile top_k true
      if programs.isEmpty then
        (.error (.valueError ("No relevant programs found for this profile".toList)), db)
      else
        let user_prompt := create_user_prompt profile programs
        match call_llm env user_prompt with
        | .error e => (.error e, db)
        | .ok ai_response =>
          let newRec : Recommendation :=
            { id := db.recommendations.length, profile_id := profile_id,
              session_id := session_id, query := query_text,
              retrieved_context := programs.map toContextItem,
              ai_response := ai_response,
              structured_data := parse_json_from_response ai_response,
              feedback_rating := none, feedback_comment := none }
          (.ok newRec, { db with recommendations := db.recommendations ++ [newRec] })

/-- How the Mistral chunk stream ends, after yielding its deltas. -/
inductive StreamEnd where
  | completed
  | failed (msg : PyStr)
deriving DecidableEq

/-- One upstream streaming completion call: the `delta.content` of each
arriving chunk in order (`none` when a chunk carries no content), and how
the stream ends. -/
structure LLMStream where
  deltas : List (Option PyStr)
  ending : StreamEnd
deriving DecidableEq

/-- How far the consumer drives the async generator: to exhaustion, or
closing it (client disconnect → GeneratorExit) after receiving n chunks.
Code before the first yield runs on the first resume, which the model
takes as always performed. -/
inductive Consumption where
  | toCompletion
  | closeAfter (n : Nat)
deriving DecidableEq

/-- The truthy `delta.content` values in arrival order — exactly the
chunks the generator appends to its accumulator and yields. -/
def truthyChunks (deltas : List (Option PyStr)) : List PyStr :=
  deltas.filterMap (fun d =>
    match d with
    | none => none
    | some s => if s.isEmpty then none else some s)

/-- `RecommendationService.stream_recommendation`, as a function of how
the upstream stream would behave and how far the consumer drives the
generator.  Returns (chunks delivered to the consumer, how the generator
run ends, the store left behind).  The generator's pre-yield code runs
on the first resume, which the model takes as always performed; there,
right after the `session_scope` block, line 193 reads the detached
expired profile (see `readProfileAfterScope`) and raises
`DetachedInstanceError` before any chunk is yielded — so every run with
an existing profile delivers zero chunks and persists nothing.  The
`.ok` branch below transcribes the unreachable lines 193-255, whose
Python semantics would be:
* each chunk is yielded inside the `try`, so an upstream exception after
  k chunks is wrapped in `RuntimeError("Failed to stream recommendation:
  ...")` and the save step is never reached;
* GeneratorExit raised at a yield by a close is a BaseException which
  `except Exception` does NOT catch, so the generator unwinds without
  reaching the save step;
* only when the `for` loop exhausts the stream does control fall through
  to the save step, which joins the accumulator, extracts the structured
  block and appends the Recommendation row in its own commit. -/
def stream_recommendation (env : Env) (db : DB) (profile_id session_id : Nat)
    (top_k : Nat) (use_fallback : Bool) (stream : LLMStream) (consume : Consumption) :
    List PyStr × Except PyError Unit × DB :=
  match getProfileById db profile_id with
  | none =>
    ([], .error (.valueError ("Profile ".toList ++ intRepr profile_id ++ " not found".toList)), db)
  | some profile =>
    match readProfileAfterScope profile with
    | .error e => ([], .error e, db)
    | .ok profile =>
      let query_text := profile_to_query profile
      let programs :=
        if use_fallback then (retrieve_with_fallback env profile top_k).1
        else retrieve_relevant_programs env profile top_k true
      if programs.isEmpty then
        ([], .error (.valueError ("No relevant programs found".toList)), db)
      else
        let yields := truthyChunks stream.deltas
        match consume with
        | .closeAfter n => (yields.take n, .ok (), db)
        | .toCompletion =>
          match stream.ending with
          | .failed msg =>
            (yields, .error (.runtimeError ("Failed to stream recommendation: ".toList ++ msg)),
              db)
          | .completed =>
            let ai_response := yields.flatten
            let newRec : Recommendation :=
              { id := db.recommendations.length, profile_id := profile_id,
                session_id := session_id, query := query_text,
                retrieved_context := programs.map toContextItem,
                ai_response := ai_response,
                structured_data := parse_json_from_response ai_response,
                feedback_rating := none, feedback_comment := none }
            (yields, .ok (), { db with recommendations := db.recommendations ++ [newRec] })

/-! ## Session-list grouping (`repositories/conversation_repository.py`) -/

/-- One item dict of the session list as built by
`ConversationService.get_user_sessions` (keys id, profile_id,
profile_name, title, last_message, last_message_at, message_count).  The
grouping function additionally reads a `created_at` key with `.get`, so
that key is modelled as optional here (the service-layer construction
does not put it in). -/
structure SessionItem where
  id : Nat
  profile_id : Option Nat
  profile_name : Option PyStr
  title : PyStr
  last_message : Option PyStr
  last_message_at : Option Int
  created_at : Option Int
  message_count : Nat
deriving DecidableEq

/-- One day on the naive-UTC clock: 86400 seconds (Python datetimes have
no leap seconds, `timedelta(days=1)` is exactly this). -/
def dayLen : Int := 86400

/-- `now.replace(hour=0, minute=0, second=0, microsecond=0)`: the start
of the current calendar day — flooring to a day multiple. -/
def dayStart (now : Int) : Int := now - now.emod dayLen

/-- The effective timestamp:
`item.get("last_message_at") or item.get("created_at")` — datetime
objects are always truthy in Python, so `or` selects on presence. -/
def effTimestamp (it : SessionItem) : Option Int :=
  match it.last_message_at with
  | some t => some t
  | none => it.created_at

/-- Which period list the if/elif chain of
`group_sessions_by_period_with_items` appends an item to
(0 = Today, 1 = Yesterday, 2 = Last 7 days, 3 = Last month; `none`:
skipped — no timestamp at all, or older than the month cutoff). -/
def bucketOf (now : Int) (it : SessionItem) : Option Nat :=
  let today_start := dayStart now
  let yesterday_start := today_start - dayLen
  let week_ago := today_start - 7 * dayLen
  let month_ago := today_start - 30 * dayLen
  match effTimestamp it with
  | none => none
  | some t =>
    if t ≥ today_start then some 0
    else if t ≥ yesterday_start then some 1
    else if t ≥ week_ago then some 2
    else if t ≥ month_ago then some 3
    else none

/-- `conversation_repository.group_sessions_by_period_with_items`: each
item goes to the single period its timestamp selects (in input order),
and empty periods are dropped; the surviving groups keep the insertion
order of the grouping dict. -/
def group_sessions_by_period_with_items (now : Int) (session_items : List SessionItem) :
    List (PyStr × List SessionItem) :=
  let grouped : List (PyStr × List SessionItem) :=
    [("Today".toList, session_items.filter (fun it => bucketOf now it = some 0)),
     ("Yesterday".toList, session_items.filter (fun it => bucketOf now it = some 1)),
     ("Last 7 days".toList, session_items.filter (fun it => bucketOf now it = some 2)),
     ("Last month".toList, session_items.filter (fun it => bucketOf now it = some 3))]
  grouped.filter (fun g => !g.2.isEmpty)

/-! ## Grounded chat (`services/conversational_ai_service.py`) -/

/-- Python truthiness of a decoded JSON value. -/
def truthyJson : Json → Bool
  | .null => false
  | .bool b => b
  | .num n => n != 0
  | .str s => !s.isEmpty
  | .arr xs => !xs.isEmpty
  | .obj kvs => !kvs.isEmpty

/-- Python `key in value` on a decoded JSON value (dict: key lookup;
list: element membership; string: substring).  `in` on a number would
raise TypeError in Python; that shape never reaches this check and is
modelled as False. -/
def pyInJson (k : PyStr) : Json → Bool
  | .obj kvs => (jsonLookup kvs k).isSome
  | .arr xs => xs.any (fun v => v = Json.str k)
  | .str s => (findFrom k s 0).isSome
  | _ => false

/-- The elements Python iteration yields from a decoded JSON value
(list: elements; string: one-character strings; dict: keys).  Iterating a
number would raise TypeError; that shape is modelled as yielding nothing. -/
def jsonElems : Json → List Json
  | .arr xs => xs
  | .str s => s.map (fun c => Json.str [c])
  | .obj kvs => kvs.map (fun kv => Json.str kv.1)
  | _ => []

/-- `str(e)` of a raised exception: its message. -/
def pyErrMsg : PyError → PyStr
  | .valueError m => m
  | .runtimeError m => m
  | .attributeError m => m
  | .typeError m => m
  | .detachedInstanceError m => m

/-- `l[-n:]`. -/
def takeLast (n : Nat) (l : List α) : List α := l.drop (l.length - n)

/-- `conversational_ai_service.build_system_prompt`.  Its `profile`
argument comes from `session.profile` and may be None, in which case the
unconditional `profile.profile_name` access raises AttributeError.  The
`hasattr(profile, "student_preferences")` guard is False for every
Profile (the ORM names that relationship `preferences`), so the
preferences block never renders. -/
def build_system_prompt (profile : Option Profile) (recommendation : Option Recommendation) :
    Except PyError PyStr :=
  match profile with
  | none =>
    .error (.attributeError
      (lit "\x01NoneType\x01 object has no attribute \x01profile_name\x01"))
  | some p =>
    let base := lit "You are an expert academic advisor AI assistant helping students find and understand graduate programs.

Your role:
- Answer questions about academic programs and recommendations
- Provide detailed information about admission requirements, costs, and difficulty
- Help students make informed decisions
- Use markdown formatting for clarity

Guidelines:
- Be encouraging and supportive
- Provide specific, actionable advice
- Reference the student\x01s profile when relevant
- If asked about programs not in the recommendations, acknowledge this and focus on what you know
"
    let profCtx :=
      "\n\n**Student Profile:**\n".toList ++ "- Name: ".toList ++ p.profile_name ++ "\n".toList
      ++ (match p.academic_record with
          | none => []
          | some ar =>
            (if truthyStr ar.current_status then
               "- Current Status: ".toList ++ ar.current_status.getD [] ++ "\n".toList else [])
            ++ (if truthyStr ar.current_field then
               "- Field of Study: ".toList ++ ar.current_field.getD [] ++ "\n".toList else [])
            ++ (if truthyRat ar.gpa then
               "- GPA: ".toList ++ showOptRat ar.gpa ++ "/4.0\n".toList else [])
            ++ (if truthyStr ar.current_institution then
               "- Current Institution: ".toList ++ ar.current_institution.getD [] ++ "\n".toList
               else []))
    let recCtx :=
      match recommendation with
      | none => []
      | some r =>
        if truthyJson r.structured_data then
          let structured := r.structured_data
          "\n\n**Generated Recommendations:**\n".toList
          ++ (if pyInJson ("program_names".toList) structured then
                let programs :=
                  match structured with
                  | .obj kvs => (jsonLookup kvs ("program_names".toList)).getD Json.null
                  | _ => Json.null
                let progElems := jsonElems programs
                "You recommended ".toList ++ natRepr progElems.length
                  ++ " programs:\n".toList
                  ++ ((progElems.take 5).enumFrom 1).foldl (fun acc q =>
                       acc ++ natRepr q.1 ++ ". ".toList ++ pyStrOfJson q.2
                        ++ (if pyInJson ("match_scores".toList) structured then
                              let scores :=
                                match structured with
                                | .obj kvs => (jsonLookup kvs ("match_scores".toList)).getD Json.null
                                | _ => Json.null
                              match (jsonElems scores).get? (q.1 - 1) with
                              | some sc => " (Match: ".toList ++ pyStrOfJson sc ++ "%)".toList
                              | none => []
                            else [])
                        ++ "\n".toList) []
              else [])
        else []
    .ok (base ++ profCtx ++ recCtx
      ++ "\n\nRespond in a friendly, professional tone using markdown formatting.".toList)

/-- `conversational_ai_service.generate_response`: build the (role,
content) message list — system prompt, last-10 history, current user
message — and call the chat client; any exception inside the `try`
(including the AttributeError from a None profile) is re-raised as
`RuntimeError("Failed to generate response: ...")`. -/
def generate_response (env : Env) (user_message : PyStr) (profile : Option Profile)
    (recommendation : Option Recommendation) (message_history : List ConversationMessage) :
    Except PyError PyStr :=
  match build_system_prompt profile recommendation with
  | .error e =>
    .error (.runtimeError ("Failed to generate response: ".toList ++ pyErrMsg e))
  | .ok system_prompt =>
    let messages := [("system".toList, system_prompt)]
      ++ (takeLast 10 message_history).map (fun m => (m.role, m.content))
      ++ [("user".toList, user_message)]
    match env.chatComplete messages with
    | .ok text => .ok text
    | .error e => .error (.runtimeError ("Failed to generate response: ".toList ++ e))

/-! ## Conversation service (`services/conversation_service.py`) -/

/-- The attribute names class ConversationSession defines
(`models/conversation.py`: its columns and relationships). -/
def conversationSessionAttrNames : List PyStr :=
  ["id".toList, "user_id".toList, "profile_id".toList, "title".toList, "status".toList,
   "created_at".toList, "updated_at".toList, "last_message_at".toList,
   "user".toList, "profile".toList, "messages".toList, "recommendations".toList]

/-- The `session.recommendation` attribute read at
`conversation_service.py` line 286, as Python getattr: the class defines
`recommendations` (plural) and nothing named `recommendation`, so the
access raises AttributeError. -/
def session_recommendation_attr (_s : ConversationSession) :
    Except PyError (Option Recommendation) :=
  if ("recommendation".toList) ∈ conversationSessionAttrNames then
    .ok none  -- unreachable: the name is not among the attributes the class defines
  else
    .error (.attributeError
      (lit "\x01ConversationSession\x01 object has no attribute \x01recommendation\x01"))

/-- `ConversationService.send_message`: verify ownership, append the user
message (its own commit), read `session.profile` and
`session.recommendation`, build the last-10 history, call the grounded
chat completion, append the assistant reply, and return the pair.  The
`session.recommendation` read raises AttributeError (see
`session_recommendation_attr`), which propagates out of the service after
the user message's commit. -/
def send_message (env : Env) (db : DB) (user_id session_id : Nat) (content : PyStr) :
    Except PyError (ConversationMessage × ConversationMessage) × DB :=
  match getSessionById db session_id with
  | none =>
    (.error (.valueError ("Session ".toList ++ natRepr session_id ++ " not found".toList)), db)
  | some s =>
    if s.user_id ≠ user_id then
      (.error (.valueError ("Session does not belong to user".toList)), db)
    else
      let p1 := add_message env db session_id ("user".toList) content none
      let profile :=
        match s.profile_id with
        | none => none
        | some pid => getProfileById p1.2 pid
      match session_recommendation_attr s with
      | .error e => (.error e, p1.2)
      | .ok recommendation =>
        let message_history := get_recent_messages p1.2 session_id 10
        match generate_response env content profile recommendation message_history with
        | .error e => (.error e, p1.2)
        | .ok ai_response =>
          let p2 := add_message env p1.2 session_id ("assistant".toList) ai_response none
          (.ok (p1.1, p2.1), p2.2)

/-- `schemas/conversation.py` RecommendationGenerationResponse. -/
structure RecommendationGenerationResponse where
  recommendation_id : Nat
  message_id : Nat
  ai_response : PyStr
  structured_data : Json
deriving DecidableEq

/-- `value.get(key, default)` on a decoded JSON value: a dict lookup; on
any non-dict the attribute access `.get` raises AttributeError. -/
def pyDictGet (j : Json) (k : PyStr) (dflt : Json) : Except PyError Json :=
  match j with
  | .obj kvs => .ok ((jsonLookup kvs k).getD dflt)
  | _ => .error (.attributeError (lit "object has no attribute \x01get\x01"))

/-- `value[:n]` on a decoded JSON value (list and string slices; any
other shape would raise TypeError). -/
def pySliceTo (n : Nat) : Json → Except PyError Json
  | .arr xs => .ok (Json.arr (xs.take n))
  | .str s => .ok (Json.str (s.take n))
  | j => .error (.typeError (lit "object is not subscriptable: " ++ Json.dump j))

/-- `len(value)` on a decoded JSON value. -/
def pyLen : Json → Except PyError Nat
  | .arr xs => .ok xs.length
  | .str s => .ok s.length
  | .obj kvs => .ok kvs.length
  | j => .error (.typeError (lit "object has no len(): " ++ Json.dump j))

/-- Render `value[i]` for the match-score interpolation of the welcome
message; the caller has checked `i < len(value)`, so the out-of-bounds
and non-indexable branches are unreachable. -/
def pyIndexRender (j : Json) (i : Nat) : PyStr :=
  match j with
  | .arr xs =>
    match xs.get? i with
    | some v => pyStrOfJson v
    | none => []
  | .str s =>
    match s.get? i with
    | some c => [c]
    | none => []
  | _ => []

/-- The parameter names of `conversation_repository.add_message`
(`db`, `session_id`, `role`, `content`, `message_metadata`); the
function declares no `**kwargs`. -/
def addMessageParamNames : List PyStr :=
  ["db".toList, "session_id".toList, "role".toList, "content".toList,
   "message_metadata".toList]

/-- The TypeError message of a keyword argument no parameter accepts. -/
def addMessageKwMsg : PyStr :=
  lit "add_message() got an unexpected keyword argument \x01metadata\x01"

/-- The welcome append at `conversation_service.py` lines 374-380, which
calls `add_message` with the keyword argument `metadata=...`: Python
binds keywords by parameter name, and `add_message` has no parameter
named `metadata` (its parameter is `message_metadata`, see
`addMessageParamNames`) and no `**kwargs`, so the call itself raises
TypeError before `add_message`'s body runs. -/
def add_message_metadata_kw (env : Env) (db : DB) (sid : Nat) (role content : PyStr)
    (metadata : List (PyStr × Json)) : Except PyError (ConversationMessage × DB) :=
  if ("metadata".toList) ∈ addMessageParamNames then
    .ok (add_message env db sid role content (some metadata))
  else
    .error (.typeError addMessageKwMsg)

/-- The welcome message `generate_initial_recommendation` synthesizes
from the structured data (after the `or {}` defaulting): header with the
count of the up-to-5 programs, one line per program with its match score
(or "N/A" when `match_scores` is too short), and the closing invitation. -/
def welcome_content_of (structured : Json) : Except PyError PyStr := do
  let programsRaw ← pyDictGet structured ("program_names".toList) (Json.arr [])
  let programs ← pySliceTo 5 programsRaw
  let n ← pyLen programs
  let scoresRaw ← pyDictGet structured ("match_scores".toList) (Json.arr [])
  let scoresLen ← pyLen scoresRaw
  let body := ((jsonElems programs).enumFrom 1).foldl (fun acc q =>
    acc ++ "\n".toList ++ natRepr q.1 ++ ". **".toList ++ pyStrOfJson q.2
      ++ "** (Match: ".toList
      ++ (if q.1 - 1 < scoresLen then pyIndexRender scoresRaw (q.1 - 1) else "N/A".toList)
      ++ "%)".toList) []
  return lit "# Academic Recommendations Generated

I\x01ve analyzed your profile and found **" ++ natRepr n
    ++ lit "** graduate programs that match your goals.

**Top Recommendations:**
"
    ++ body
    ++ lit "\n\nFeel free to ask me any questions about these programs, admission requirements, costs, or anything else!"

/-- `ConversationService.generate_initial_recommendation`: verify the
session and its ownership, require an attached profile, delegate to
`generate_recommendation` bound to (session.profile_id, session_id), and
on success synthesize the welcome text and append it as an assistant
message tagged `\x7b"type": "recommendation_generated"\x7d`, returning the
new ids, the welcome text and the recommendation's structured data.  In
the source no run reaches the response: the delegation raises
`DetachedInstanceError` (or ProfileNotFound), and independently the
welcome append passes the keyword `metadata=` to `add_message` (see
`add_message_metadata_kw`), which would raise TypeError were the branch
reached. -/
def generate_initial_recommendation (env : Env) (db : DB) (user_id session_id : Nat) :
    Except PyError RecommendationGenerationResponse × DB :=
  match getSessionById db session_id with
  | none =>
    (.error (.valueError ("Session ".toList ++ natRepr session_id ++ " not found".toList)), db)
  | some s =>
    if s.user_id ≠ user_id then
      (.error (.valueError ("Session does not belong to user".toList)), db)
    else
      match s.profile_id with
      | none =>
        (.error (.valueError (lit "Cannot generate recommendations: session has no profile attached. Please append a profile first.")), db)
      | some pid =>
        match generate_recommendation env db pid session_id 5 true with
        | (.error e, db1) => (.error e, db1)
        | (.ok newRec, db1) =>
          let structured :=
            if truthyJson newRec.structured_data then newRec.structured_data else Json.obj []
          match welcome_content_of structured with
          | .error e => (.error e, db1)
          | .ok welcome_content =>
            match add_message_metadata_kw env db1 session_id ("assistant".toList)
                welcome_content
                [("type".toList, Json.str ("recommendation_generated".toList))] with
            | .error e => (.error e, db1)
            | .ok p =>
              (.ok { recommendation_id := newRec.id, message_id := p.1.id,
                     ai_response := welcome_content,
                     structured_data := newRec.structured_data },
               p.2)

/-! ## Claim-statement vocabulary and concrete fixtures -/

/-- The backtick character (codepoint 96). -/
def btick : Char := Char.ofNat 96

/-- A concrete academic record: undergraduate in Computer Science,
GPA 15/20, preferring French. -/
def fixtureAR : AcademicRecord :=
  { current_status := some ("undergrad".toList), current_institution := none,
    current_field := some ("Computer Science".toList), gpa := some 15,
    transcript_url := none, language_preference := some ("French".toList),
    subject_grades := [] }

/-- Concrete preferences with a budget ceiling. -/
def fixturePrefs : StudentPreferences :=
  { favorite_subjects := some ["Math".toList], disliked_subjects := none,
    soft_skills := none, hobbies := none, geographic_preference := none,
    budget_range_min := none, budget_range_max := some 50000,
    career_goals := none }

/-- A concrete profile (id 1, owned by user 7). -/
def fixtureProfile : Profile :=
  { id := 1, user_id := 7, profile_name := "Amine".toList, status := "active".toList,
    academic_record := some fixtureAR, preferences := some fixturePrefs }

/-- A concrete session (id 2, owned by user 7, profile 1 attached). -/
def fixtureSession : ConversationSession :=
  { id := 2, user_id := 7, profile_id := some 1, title := "t".toList,
    status := "active".toList, created_at := 0, updated_at := 0, last_message_at := none }

/-- A concrete session owned by user 7 with no profile attached (id 3). -/
def fixtureSessionNoProfile : ConversationSession :=
  { id := 3, user_id := 7, profile_id := none, title := "t".toList,
    status := "active".toList, created_at := 0, updated_at := 0, last_message_at := none }

/-- The concrete store backing the fixtures. -/
def fixtureDB : DB :=
  { profiles := [fixtureProfile], sessions := [fixtureSession, fixtureSessionNoProfile],
    messages := [], recommendations := [] }

/-- One concrete Pinecone match. -/
def fixtureSearchResult : SearchResult :=
  { university := some ("UM6P".toList), program_name := some ("CS".toList),
    score := some (9 / 10 : Rat), metadata := some [], content := some ("desc".toList) }

/-- A concrete model response carrying a well-formed tagged JSON block. -/
def fixtureAiText : PyStr :=
  ("Intro\n```json\n" ++
   "\x7b\"match_scores\": [90, 80], \"program_names\": [\"CS\", \"Math\"], " ++
   "\"difficulty_levels\": [5, 6], \"tuition_fees\": [10000, 20000]\x7d" ++
   "\n```\nOutro").toList

/-- A concrete collaborator environment where every call succeeds. -/
def fixtureEnv : Env :=
  { search := fun _ _ _ => [fixtureSearchResult],
    complete := fun _ _ => .ok fixtureAiText,
    chatComplete := fun _ => .ok ("reply".toList),
    now := 86400 * 100 + 3600 }

/-- The environment with a completion collaborator that always raises. -/
def fixtureEnvFail : Env :=
  { fixtureEnv with complete := fun _ _ => .error ("boom".toList) }

/-- The environment whose vector search returns no matches on any tier. -/
def fixtureEnvNoHits : Env :=
  { fixtureEnv with search := fun _ _ _ => [] }

/-- An environment whose search returns matches only once the tuition
filter is gone (tier 1 empty, tier 2 non-empty). -/
def fixtureEnvTier2 : Env :=
  { fixtureEnv with
      search := fun _ f _ =>
        match f with
        | some fl => if fl.tuition_fee_mad_lte.isNone then [fixtureSearchResult] else []
        | none => [fixtureSearchResult] }

/-- A concrete upstream stream: three chunks (one contentless), then a
natural end. -/
def fixtureStream : LLMStream :=
  { deltas := [some ("He".toList), none, some ("llo".toList)], ending := .completed }

/-- A profile whose academic record names an allowed language but which
has no preferences row. -/
def c7_ar : AcademicRecord :=
  { current_status := none, current_institution := none,
    current_field := none, gpa := none, transcript_url := none,
    language_preference := some ("French".toList), subject_grades := [] }

/-- An empty preferences row. -/
def emptyPrefs : StudentPreferences :=
  { favorite_subjects := none, disliked_subjects := none, soft_skills := none,
    hobbies := none, geographic_preference := none, budget_range_min := none,
    budget_range_max := none, career_goals := none }

/-- A profile whose academic record names an allowed language but which
has no preferences row (see `c7_ar`). -/
def c7_profile : Profile :=
  { id := 0, user_id := 0, profile_name := "P".toList, status := "draft".toList,
    academic_record := some c7_ar, preferences := none }

/-- The same profile with an (otherwise empty) preferences row present. -/
def c7w_profile : Profile :=
  { c7_profile with preferences := some emptyPrefs }

/-- A profile whose numeric constraint fields are present but zero:
GPA 0 in the academic record, budget ceiling 0 in the preferences. -/
def c10_profile : Profile :=
  { id := 0, user_id := 0, profile_name := "Z".toList, status := "draft".toList,
    academic_record := some { c7_ar with gpa := some 0, language_preference := none },
    preferences := some { emptyPrefs with budget_range_max := some 0 } }

/-- The structured value of the round-trip check: four positionally
aligned arrays of length 3. -/
def rtVal : Json :=
  Json.obj
    [("match_scores".toList, Json.arr [Json.num 85, Json.num 72, Json.num 64]),
     ("program_names".toList,
       Json.arr [Json.str ("A".toList), Json.str ("B".toList), Json.str ("C".toList)]),
     ("difficulty_levels".toList, Json.arr [Json.num 7, Json.num 8, Json.num 6]),
     ("tuition_fees".toList, Json.arr [Json.num 50000, Json.num 80000, Json.num 30000])]

/-- Model output embedding the serialized `rtVal` in a tagged fenced
block, with free text around it. -/
def rtText : PyStr :=
  "Summary text\n```json\n".toList ++ Json.dump rtVal ++ "\n```\nTrailing".toList

/-- A concrete session item whose effective timestamp is 10:00 of the
day before the fixture clock's day. -/
def fixtureYesterdayItem : SessionItem :=
  { id := 1, profile_id := none, profile_name := none, title := "x".toList,
    last_message := none, last_message_at := some (86400 * 99 + 36000),
    created_at := none, message_count := 0 }

/-! ## Theorems: the claims settled -/

set_option maxRecDepth 8000

/-- The `min_gpa` key of the filter dict, in closed form. -/
theorem build_filters_min_gpa (p : Profile) :
    (build_metadata_filters p).min_gpa_lte =
      (if p.academic_record.isSome &&
          truthyRat ((p.academic_record.map AcademicRecord.gpa).getD none)
       then (p.academic_record.map AcademicRecord.gpa).getD none else none) := by
  unfold build_metadata_filters
  cases hp : p.preferences <;> dsimp only [] <;> split <;> try rfl
  all_goals (repeat' split) <;> rfl

/-- The `tuition_fee_mad` key of the filter dict, in closed form. -/
theorem build_filters_tuition (p : Profile) :
    (build_metadata_filters p).tuition_fee_mad_lte =
      (match p.preferences with
       | none => none
       | some prefs =>
         if truthyInt prefs.budget_range_max then prefs.budget_range_max else none) := by
  unfold build_metadata_filters
  cases hp : p.preferences <;> dsimp only [] <;> split <;> try rfl
  all_goals (repeat' split) <;> rfl

/-- The `location` key of the filter dict, in closed form. -/
theorem build_filters_location (p : Profile) :
    (build_metadata_filters p).location_eq =
      (match p.preferences with
       | none => none
       | some prefs =>
         if truthyStr prefs.geographic_preference then prefs.geographic_preference else none) := by
  unfold build_metadata_filters
  cases hp : p.preferences <;> dsimp only [] <;> split <;> try rfl
  all_goals (repeat' split) <;> rfl

/-- The `language` key of the filter dict, in closed form. -/
theorem build_filters_language (p : Profile) :
    (build_metadata_filters p).language_eq =
      (match p.preferences with
       | none => none
       | some _ =>
         if p.academic_record.isSome &&
             truthyStr ((p.academic_record.map AcademicRecord.language_preference).getD none) then
           (if ((p.academic_record.map AcademicRecord.language_preference).getD none).getD []
                ∈ allowedLanguages then
              some (((p.academic_record.map AcademicRecord.language_preference).getD none).getD [])
            else none)
         else none) := by
  unfold build_metadata_filters
  cases hp : p.preferences <;> dsimp only [] <;> split <;> try rfl
  all_goals (repeat' split) <;> rfl

/-- Every allowed language name is a non-empty string. -/
theorem allowed_isEmpty_false (l : PyStr) (h : l ∈ allowedLanguages) : l.isEmpty = false := by
  fin_cases h <;> rfl

/-- C10: `build_metadata_filters` tests the numeric constraint fields by
truthiness, so a present-but-zero value is treated as absent — a profile
whose academic record has `gpa = 0` gets no GPA filter, and one whose
preferences have `budget_range_max = 0` gets no tuition filter. -/
theorem c10_zero_numeric_fields_filterless (profile : Profile) :
    (∀ ar, profile.academic_record = some ar → ar.gpa = some 0 →
      (build_metadata_filters profile).min_gpa_lte = none)
    ∧ (∀ prefs, profile.preferences = some prefs → prefs.budget_range_max = some 0 →
      (build_metadata_filters profile).tuition_fee_mad_lte = none) := by
  constructor
  · intro ar har hg
    rw [build_filters_min_gpa, har]
    simp [hg, truthyRat]
  · intro prefs hp hb
    rw [build_filters_tuition, hp]
    simp [hb, truthyInt]

/-- C10 witness: both zero-valued constraints of `c10_profile` produce no filter. -/
theorem c10_witness :
    (build_metadata_filters c10_profile).min_gpa_lte = none
    ∧ (build_metadata_filters c10_profile).tuition_fee_mad_lte = none :=
  ⟨(c10_zero_numeric_fields_filterless c10_profile).1 _ rfl rfl,
   (c10_zero_numeric_fields_filterless c10_profile).2 _ rfl rfl⟩

/-- C7 counterexample: `c7_profile`'s academic record specifies the
allowed language French, yet — because the profile has no preferences row
and the language insert sits inside the `if profile.preferences:` block —
the returned filter map contains no language filter, contradicting the
claim's "for every profile whose academic record has such a language
preference, the returned filter map contains that language filter". -/
theorem c7_counterexample :
    c7_profile.academic_record = some c7_ar
    ∧ c7_ar.language_preference = some ("French".toList)
    ∧ ("French".toList) ∈ allowedLanguages
    ∧ (build_metadata_filters c7_profile).language_eq = none :=
  ⟨rfl, rfl, by decide, by decide⟩

/-- C7 (amended): `build_metadata_filters` includes an exact-match
language filter if and only if the profile has a preferences row present
AND its academic record specifies a language preference belonging to the
fixed allowed set \x7bFrench, English, Arabic\x7d. -/
theorem c7_language_filter_amended (profile : Profile) (l : PyStr) :
    (build_metadata_filters profile).language_eq = some l ↔
      (profile.preferences.isSome = true
        ∧ ∃ ar, profile.academic_record = some ar ∧ ar.language_preference = some l
            ∧ l ∈ allowedLanguages) := by
  rw [build_filters_language]
  cases hp : profile.preferences with
  | none => simp
  | some prefs =>
    cases har : profile.academic_record with
    | none => simp
    | some ar =>
      cases hlang : ar.language_preference with
      | none => simp [truthyStr, hlang]
      | some lang =>
        simp only [truthyStr, hlang, Option.map_some', Option.getD_some, Option.isSome_some,
          Bool.true_and, Option.some.injEq, true_and]
        by_cases hne : lang.isEmpty
        · have hnm : lang ∉ allowedLanguages := by
            intro hm
            rw [allowed_isEmpty_false lang hm] at hne
            exact Bool.false_ne_true hne
          simp [hne]
          intro hl2 hm2
          rw [hlang] at hl2
          cases hl2
          exact hnm hm2
        · by_cases hmem : lang ∈ allowedLanguages
          · simp only [hne, Bool.not_false, if_true, hmem, if_pos, Option.some.injEq]
            constructor
            · rintro rfl
              exact ⟨ar, rfl, hlang, hmem⟩
            · rintro ⟨ar2, h2, hl2, hm2⟩
              cases h2
              rw [hlang] at hl2
              cases hl2
              rfl
          · simp only [hne, Bool.not_false, if_true, hmem, if_neg, if_false]
            constructor
            · intro h
              simp at h
            · rintro ⟨ar2, h2, hl2, hm2⟩
              cases h2
              rw [hlang] at hl2
              cases hl2
              exact absurd hm2 hmem

/-- C7 witness: with a preferences row present, the French preference yields the filter. -/
theorem c7_amended_witness :
    (build_metadata_filters c7w_profile).language_eq = some ("French".toList) :=
  (c7_language_filter_amended c7w_profile _).mpr ⟨rfl, c7_ar, rfl, rfl, by decide⟩

/-- A non-nil list is not `isEmpty`. -/
theorem isEmpty_false_of_ne_nil {α : Type} {l : List α} (h : l ≠ []) : l.isEmpty = false := by
  cases l with
  | nil => exact absurd rfl h
  | cons a t => rfl

/-- When the search collaborator returns nothing on any call, every tier is empty. -/
theorem fallback_empty_of_search_empty (env : Env) (profile : Profile) (top_k : Nat)
    (hs : ∀ q f k, env.search q f k = []) :
    retrieve_with_fallback env profile top_k = ([], "semantic_only".toList) := by
  unfold retrieve_with_fallback retrieve_relevant_programs
  simp only [hs, List.map_nil, List.isEmpty_nil, Bool.not_true, if_false, Bool.false_eq_true]
  cases profile.preferences <;> simp

/-- C5 (code bug): `send_message` never creates a Recommendation — the
recommendations table is unchanged on every path — but contrary to the
claim it never succeeds either: for every owned session (profile or not)
it raises AttributeError, because `conversation_service.py:286` reads
`session.recommendation` while the ORM class only defines
`recommendations`. -/
theorem c5_send_message_attribute_error (env : Env) (db : DB) (user_id session_id : Nat)
    (content : PyStr) :
    ((send_message env db user_id session_id content).2.recommendations = db.recommendations)
    ∧ (∀ s, getSessionById db session_id = some s → s.user_id = user_id →
        (send_message env db user_id session_id content).1 =
          .error (.attributeError
            (lit "\x01ConversationSession\x01 object has no attribute \x01recommendation\x01"))) := by
  constructor
  · unfold send_message
    cases hgs : getSessionById db session_id with
    | none => rfl
    | some s =>
      dsimp only []
      split
      · rfl
      · rfl
  · intro s hgs hu
    unfold send_message
    rw [hgs]
    dsimp only []
    rw [if_neg (fun hne => hne hu)]
    rfl

/-- Filter dicts with equal fields are equal. -/
theorem filters_eq_of_fields (f g : MetadataFilters)
    (h1 : f.min_gpa_lte = g.min_gpa_lte) (h2 : f.tuition_fee_mad_lte = g.tuition_fee_mad_lte)
    (h3 : f.location_eq = g.location_eq) (h4 : f.language_eq = g.language_eq) : f = g := by
  cases f
  cases g
  cases h1
  cases h2
  cases h3
  cases h4
  rfl

/-- A truthy optional integer is present. -/
theorem truthyInt_ne_none {b : Option Int} (h : truthyInt b = true) : b ≠ none := by
  cases b with
  | none => cases h
  | some n => exact nofun

/-- C3: `retrieve_with_fallback` proceeds through at most three tiers in
the fixed order full_constraints, relaxed_budget, semantic_only,
advancing only on zero results; the budget filter is present in tier 1
exactly when the tier-2 condition holds, so tier 2 is skipped precisely
when no budget filter was present; the tier-2 call uses the same query
(base and enhanced) with only the budget ceiling removed from the filters
(all other filters retained); and the returned strategy string names the
tier that produced the result set — in particular "semantic_only" with
tier 3's candidates when tiers 1 and 2 are empty. -/
theorem c3_fallback_tier_order (env : Env) (profile : Profile) (top_k : Nat) :
    (retrieve_relevant_programs env profile top_k true ≠ [] →
      retrieve_with_fallback env profile top_k =
        (retrieve_relevant_programs env profile top_k true, "full_constraints".toList))
    ∧ ((build_metadata_filters profile).tuition_fee_mad_lte ≠ none ↔
        ∃ prefs, profile.preferences = some prefs ∧ truthyInt prefs.budget_range_max = true)
    ∧ (∀ prefs, profile.preferences = some prefs →
        profile_to_query (relaxBudget profile prefs) = profile_to_query profile
        ∧ enhance_query_with_context (profile_to_query profile) (relaxBudget profile prefs)
            = enhance_query_with_context (profile_to_query profile) profile
        ∧ build_metadata_filters (relaxBudget profile prefs) =
            { build_metadata_filters profile with tuition_fee_mad_lte := none })
    ∧ (∀ prefs, profile.preferences = some prefs → truthyInt prefs.budget_range_max = true →
        retrieve_relevant_programs env profile top_k true = [] →
        retrieve_relevant_programs env (relaxBudget profile prefs) top_k true ≠ [] →
        retrieve_with_fallback env profile top_k =
          (retrieve_relevant_programs env (relaxBudget profile prefs) top_k true,
            "relaxed_budget".toList))
    ∧ ((build_metadata_filters profile).tuition_fee_mad_lte = none →
        retrieve_relevant_programs env profile top_k true = [] →
        retrieve_with_fallback env profile top_k =
          ((env.search (profile_to_query profile) none top_k).map searchResultToProgramSemantic,
            "semantic_only".toList))
    ∧ (∀ prefs, profile.preferences = some prefs → truthyInt prefs.budget_range_max = true →
        retrieve_relevant_programs env profile top_k true = [] →
        retrieve_relevant_programs env (relaxBudget profile prefs) top_k true = [] →
        retrieve_with_fallback env profile top_k =
          ((env.search (profile_to_query profile) none top_k).map searchResultToProgramSemantic,
            "semantic_only".toList)) := by
  refine ⟨?_, ?_, ?_, ?_, ?_, ?_⟩
  · intro hne
    unfold retrieve_with_fallback
    rw [if_pos (by simp [isEmpty_false_of_ne_nil hne])]
  · rw [build_filters_tuition]
    cases hp : profile.preferences with
    | none => simp
    | some prefs =>
      by_cases htr : truthyInt prefs.budget_range_max = true
      · simp only [htr, if_true]
        constructor
        · intro _
          exact ⟨prefs, rfl, htr⟩
        · intro _
          exact truthyInt_ne_none htr
      · simp only [htr, if_false]
        constructor
        · intro h
          exact absurd rfl h
        · rintro ⟨prefs2, hp2, htr2⟩
          cases hp2
          exact absurd htr2 htr
  · intro prefs hp
    refine ⟨?_, ?_, ?_⟩
    · unfold profile_to_query
      rw [hp]
      rfl
    · unfold enhance_query_with_context
      rw [hp]
      rfl
    · apply filters_eq_of_fields
      · show _ = (build_metadata_filters profile).min_gpa_lte
        rw [build_filters_min_gpa, build_filters_min_gpa]
        rfl
      · show _ = (none : Option Int)
        rw [build_filters_tuition]
        rfl
      · show _ = (build_metadata_filters profile).location_eq
        rw [build_filters_location, build_filters_location, hp]
        rfl
      · show _ = (build_metadata_filters profile).language_eq
        rw [build_filters_language, build_filters_language, hp]
        rfl
  · intro prefs hp htr h1 hne2
    unfold retrieve_with_fallback
    rw [h1, hp]
    simp only [List.isEmpty_nil, Bool.not_true, Bool.false_eq_true, if_false, htr, if_true,
      isEmpty_false_of_ne_nil hne2, Bool.not_false]
  · intro htuit h1
    unfold retrieve_with_fallback
    rw [h1]
    simp only [List.isEmpty_nil, Bool.not_true, Bool.false_eq_true, if_false]
    cases hp : profile.preferences with
    | none => rfl
    | some prefs =>
      rw [build_filters_tuition, hp] at htuit
      have htr : truthyInt prefs.budget_range_max = false := by
        cases hb : truthyInt prefs.budget_range_max with
        | false => rfl
        | true =>
          exfalso
          dsimp only [] at htuit
          rw [hb, if_pos rfl] at htuit
          rw [htuit] at hb
          cases hb
      simp only [htr, Bool.false_eq_true, if_false]
  · intro prefs hp htr h1 h2
    unfold retrieve_with_fallback
    rw [h1, hp]
    simp only [List.isEmpty_nil, Bool.not_true, Bool.false_eq_true, if_false, htr, if_true, h2]

/-- Every group the session-list grouping returns is one of the four period lists. -/
theorem mem_group_cases (now : Int) (items : List SessionItem) (g : PyStr × List SessionItem)
    (hg : g ∈ group_sessions_by_period_with_items now items) :
    g = ("Today".toList, items.filter (fun x => bucketOf now x = some 0)) ∨
    g = ("Yesterday".toList, items.filter (fun x => bucketOf now x = some 1)) ∨
    g = ("Last 7 days".toList, items.filter (fun x => bucketOf now x = some 2)) ∨
    g = ("Last month".toList, items.filter (fun x => bucketOf now x = some 3)) := by
  unfold group_sessions_by_period_with_items at hg
  have hm := (List.mem_filter.mp hg).1
  simp only [List.mem_cons, List.not_mem_nil, or_false] at hm
  tauto

/-- Membership in a period list determines the item's bucket. -/
theorem bucket_of_mem_filter {now : Int} {items : List SessionItem} {it : SessionItem} {b : Nat}
    (h : it ∈ items.filter (fun x => bucketOf now x = some b)) : bucketOf now it = some b := by
  have := (List.mem_filter.mp h).2
  exact of_decide_eq_true this

/-- C9: the session-list grouping assigns each item to at most one of the
four buckets, determined by its last-message timestamp falling back to
its creation timestamp against day-boundary cutoffs anchored to `now`;
an item whose effective timestamp falls within the previous calendar day
appears in the Yesterday bucket and in no other; and an item older than
the last-month cutoff appears in no bucket (the function is total — no
error is raised). -/
theorem c9_session_grouping (now : Int) (items : List SessionItem) (it : SessionItem) :
    (∀ g1 g2, g1 ∈ group_sessions_by_period_with_items now items →
      g2 ∈ group_sessions_by_period_with_items now items →
      it ∈ g1.2 → it ∈ g2.2 → g1 = g2)
    ∧ (∀ t, effTimestamp it = some t → dayStart now - dayLen ≤ t → t < dayStart now →
        it ∈ items →
        (it ∈ items.filter (fun x => bucketOf now x = some 1)
          ∧ ("Yesterday".toList, items.filter (fun x => bucketOf now x = some 1)) ∈
              group_sessions_by_period_with_items now items
          ∧ ∀ g, g ∈ group_sessions_by_period_with_items now items →
              it ∈ g.2 → g.1 = "Yesterday".toList))
    ∧ (∀ t, effTimestamp it = some t → t < dayStart now - 30 * dayLen →
        ∀ g, g ∈ group_sessions_by_period_with_items now items → it ∉ g.2) := by
  refine ⟨?_, ?_, ?_⟩
  · intro g1 g2 hg1 hg2 h1 h2
    rcases mem_group_cases now items g1 hg1 with rfl | rfl | rfl | rfl <;>
      rcases mem_group_cases now items g2 hg2 with rfl | rfl | rfl | rfl <;>
      first
        | rfl
        | (exfalso
           have b1 := bucket_of_mem_filter h1
           have b2 := bucket_of_mem_filter h2
           rw [b1] at b2
           exact absurd b2 (by decide))
  · intro t heff hge hlt hmem
    have hb : bucketOf now it = some 1 := by
      unfold bucketOf
      rw [heff]
      dsimp only []
      rw [if_neg (by omega), if_pos (by omega)]
    have hin : it ∈ items.filter (fun x => bucketOf now x = some 1) :=
      List.mem_filter.mpr ⟨hmem, by simp [hb]⟩
    refine ⟨hin, ?_, ?_⟩
    · unfold group_sessions_by_period_with_items
      apply List.mem_filter.mpr
      constructor
      · simp
      · simp only [Bool.not_eq_true']
        exact (Bool.not_eq_true _).mp
          (by simp [isEmpty_false_of_ne_nil (List.ne_nil_of_mem hin)])
    · intro g hg hit
      rcases mem_group_cases now items g hg with rfl | rfl | rfl | rfl <;>
        first
          | rfl
          | (exfalso
             have b1 := bucket_of_mem_filter hit
             rw [hb] at b1
             exact absurd b1 (by decide))
  · intro t heff hlt g hg hit
    have hb : bucketOf now it = none := by
      have hday : dayLen = 86400 := rfl
      unfold bucketOf
      rw [heff]
      dsimp only []
      rw [if_neg (by omega), if_neg (by omega), if_neg (by omega), if_neg (by omega)]
    rcases mem_group_cases now items g hg with rfl | rfl | rfl | rfl <;>
      · have b1 := bucket_of_mem_filter hit
        rw [hb] at b1
        cases b1

/-- A list is a prefix of itself followed by anything. -/
theorem isPrefixOf_self_append (l r : PyStr) : l.isPrefixOf (l ++ r) = true := by
  induction l with
  | nil => simp [List.isPrefixOf]
  | cons c l ih => simp [List.isPrefixOf, ih]

/-- The scan finds nothing when the pattern occurs nowhere. -/
theorem findFrom_eq_none {sub : PyStr} (hsub : sub ≠ []) :
    ∀ (s : PyStr) (i : Nat), (∀ pre post, s ≠ pre ++ sub ++ post) → findFrom sub s i = none := by
  intro s
  induction s with
  | nil =>
    intro i h
    unfold findFrom
    simp [isEmpty_false_of_ne_nil hsub]
  | cons c cs ih =>
    intro i h
    unfold findFrom
    rw [if_neg ?hpre]
    · exact ih (i + 1) (fun pre post heq => h (c :: pre) post (by simp [heq]))
    case hpre =>
      intro hpf
      obtain ⟨post, hpost⟩ := List.isPrefixOf_iff_prefix.mp hpf
      exact h [] post (by rw [List.nil_append, hpost])

/-- The scan finds the pattern exactly at the boundary when no earlier
position starts with the pattern's head character. -/
theorem findFrom_boundary {hd : Char} {tl : PyStr} :
    ∀ (pre rest : PyStr) (i : Nat), (∀ c ∈ pre, c ≠ hd) →
      (hd :: tl).isPrefixOf rest = true →
      findFrom (hd :: tl) (pre ++ rest) i = some (i + pre.length) := by
  intro pre
  induction pre with
  | nil =>
    intro rest i h hpf
    cases rest with
    | nil => cases hpf
    | cons r rs =>
      show findFrom (hd :: tl) (r :: rs) i = some (i + 0)
      unfold findFrom
      rw [if_pos hpf]
      rfl
  | cons c pre' ih =>
    intro rest i h hpf
    have hcne : c ≠ hd := h c (by simp)
    have hbeq : (hd == c) = false := by
      rw [beq_eq_false_iff_ne]
      exact fun he => hcne he.symm
    show findFrom (hd :: tl) (c :: (pre' ++ rest)) i = _
    unfold findFrom
    rw [if_neg (by simp [List.isPrefixOf, hbeq])]
    rw [ih rest (i + 1) (fun d hd2 => h d (by simp [hd2])) hpf]
    simp
    omega

/-- `findFrom_boundary` stated for a pattern given by an equation. -/
theorem findFrom_boundary2 (sub : PyStr) (hd : Char) (tl : PyStr) (hsub : sub = hd :: tl)
    (pre rest : PyStr) (i : Nat) (h : ∀ c ∈ pre, c ≠ hd)
    (hpf : sub.isPrefixOf rest = true) :
    findFrom sub (pre ++ rest) i = some (i + pre.length) := by
  subst hsub
  exact findFrom_boundary pre rest i h hpf

/-- `str.find` misses exactly when the substring occurs nowhere. -/
theorem pyFind_eq_none (t sub : PyStr) (hsub : sub ≠ [])
    (h : ∀ pre post, t ≠ pre ++ sub ++ post) : pyFind t sub 0 = none := by
  unfold pyFind
  rw [List.drop_zero]
  exact findFrom_eq_none hsub t 0 h

/-- C8: `parse_json_from_response` is total (it is a function into `Json`
— no raise is modelled or possible) and: a text containing no "```json"
tag yields the empty dict; a text of the shape
`pre ++ "```json" ++ s ++ "```" ++ post` (with no backtick in `pre` or
`s`, so the tagged block is the first) yields exactly the parsed value of
the stripped block when it parses and the empty dict when it does not;
and the concrete round trip holds — serializing four length-3 arrays into
a tagged fenced block and extracting returns exactly that value. -/
theorem c8_extractor_exact_or_empty :
    (∀ t : PyStr, (∀ pre post, t ≠ pre ++ "```json".toList ++ post) →
      parse_json_from_response t = Json.obj [])
    ∧ (∀ pre s post : PyStr, (∀ c ∈ pre, c ≠ btick) → (∀ c ∈ s, c ≠ btick) →
        parse_json_from_response (pre ++ "```json".toList ++ s ++ "```".toList ++ post)
          = (json_loads (pyStrip s)).getD (Json.obj []))
    ∧ parse_json_from_response rtText = rtVal := by
  refine ⟨?_, ?_, ?_⟩
  · intro t h
    unfold parse_json_from_response
    dsimp only []
    rw [pyFind_eq_none t _ (by decide) h]
  · intro pre s post hpre hs
    have hlen7 : ("```json".toList).length = 7 := rfl
    have h1 : pyFind (pre ++ "```json".toList ++ s ++ "```".toList ++ post)
        ("```json".toList) 0 = some pre.length := by
      unfold pyFind
      rw [List.drop_zero]
      have hT : pre ++ "```json".toList ++ s ++ "```".toList ++ post
          = pre ++ ("```json".toList ++ (s ++ ("```".toList ++ post))) := by simp
      rw [hT]
      have := findFrom_boundary2 ("```json".toList) btick
        ("``json".toList) (by decide) pre
        ("```json".toList ++ (s ++ ("```".toList ++ post))) 0 hpre
        (isPrefixOf_self_append _ _)
      simpa using this
    have hdrop : (pre ++ "```json".toList ++ s ++ "```".toList ++ post).drop (pre.length + 7)
        = s ++ ("```".toList ++ post) := by
      have hT : pre ++ "```json".toList ++ s ++ "```".toList ++ post
          = (pre ++ "```json".toList) ++ (s ++ ("```".toList ++ post)) := by simp
      rw [hT]
      have hl : pre.length + 7 = (pre ++ "```json".toList).length := by
        rw [List.length_append, hlen7]
      rw [hl, List.drop_left]
    have h2 : pyFind (pre ++ "```json".toList ++ s ++ "```".toList ++ post)
        ("```".toList) (pre.length + 7) = some (pre.length + 7 + s.length) := by
      unfold pyFind
      rw [hdrop]
      have := findFrom_boundary2 ("```".toList) btick
        ("``".toList) (by decide) s ("```".toList ++ post) (pre.length + 7) hs
        (isPrefixOf_self_append _ _)
      simpa [Nat.add_comm] using this
    unfold parse_json_from_response
    dsimp only []
    rw [h1]
    dsimp only []
    rw [hlen7, h2]
    dsimp only []
    have harith : pre.length + 7 + s.length - (pre.length + 7) = s.length := by omega
    rw [harith, hdrop]
    have htake : (s ++ ("```".toList ++ post)).take s.length = s := List.take_left s _
    rw [htake]
    cases json_loads (pyStrip s) <;> rfl
  · decide

/-- C3 witness: with matches only after the tuition filter is dropped, the engine reports relaxed_budget. -/
theorem c3_witness :
    retrieve_with_fallback fixtureEnvTier2 fixtureProfile 5 =
      (retrieve_relevant_programs fixtureEnvTier2 (relaxBudget fixtureProfile fixturePrefs) 5 true,
        "relaxed_budget".toList) :=
  (c3_fallback_tier_order fixtureEnvTier2 fixtureProfile 5).2.2.2.1 fixturePrefs rfl rfl
    (by decide) (by decide)

/-- C5 witness: the concrete profile-less-capable fixture session raises the AttributeError. -/
theorem c5_witness :
    (send_message fixtureEnv fixtureDB 7 2 ("hello".toList)).1 =
      .error (.attributeError
        (lit "\x01ConversationSession\x01 object has no attribute \x01recommendation\x01")) :=
  (c5_send_message_attribute_error fixtureEnv fixtureDB 7 2 ("hello".toList)).2
    fixtureSession rfl rfl

/-- C8 witness: a concrete tagged block around " [1, 2] " extracts to its parse. -/
theorem c8_witness :
    parse_json_from_response (("A".toList) ++ "```json".toList ++ (" [1, 2] ".toList)
        ++ "```".toList ++ ("B".toList))
      = (json_loads (pyStrip (" [1, 2] ".toList))).getD (Json.obj []) :=
  c8_extractor_exact_or_empty.2.1 ("A".toList) (" [1, 2] ".toList) ("B".toList)
    (by decide) (by decide)

/-- C9 witness: a session at 10:00 yesterday lands in the Yesterday bucket only. -/
theorem c9_witness :
    fixtureYesterdayItem ∈ (([fixtureYesterdayItem] : List SessionItem).filter
        (fun x => bucketOf (86400 * 100 + 3600) x = some 1))
    ∧ ∀ g, g ∈ group_sessions_by_period_with_items (86400 * 100 + 3600) [fixtureYesterdayItem] →
        fixtureYesterdayItem ∈ g.2 → g.1 = "Yesterday".toList := by
  obtain ⟨h1, h2, h3⟩ := (c9_session_grouping (86400 * 100 + 3600) [fixtureYesterdayItem]
      fixtureYesterdayItem).2.1 (86400 * 99 + 36000) rfl (by decide) (by decide) (by decide)
  exact ⟨h1, h3⟩

/-- Closed form of `generate_recommendation`: because the profile loaded
inside `session_scope` (db.py) is expired by the closing commit and read
again detached at recommendation_service.py:82, every call collapses to
either the profile-not-found ValueError or a DetachedInstanceError, with
the store unchanged. -/
theorem generate_recommendation_result (env : Env) (db : DB) (pid sid k : Nat) (ub : Bool) :
    generate_recommendation env db pid sid k ub =
      (match getProfileById db pid with
       | none =>
         (.error (.valueError ("Profile ".toList ++ intRepr pid ++ " not found".toList)), db)
       | some _ => (.error (.detachedInstanceError detachedInstanceMsg), db)) := by
  unfold generate_recommendation
  cases hgp : getProfileById db pid <;> rfl

/-- Closed form of `stream_recommendation`: the detached expired profile is
read at recommendation_service.py:193, before the first chunk, so every
streamed run yields no chunks, errors, and leaves the store unchanged. -/
theorem stream_recommendation_result (env : Env) (db : DB) (pid sid k : Nat) (ub : Bool)
    (stream : LLMStream) (consume : Consumption) :
    stream_recommendation env db pid sid k ub stream consume =
      (match getProfileById db pid with
       | none =>
         ([], .error (.valueError ("Profile ".toList ++ intRepr pid ++ " not found".toList)),
           db)
       | some _ => ([], .error (.detachedInstanceError detachedInstanceMsg), db)) := by
  unfold stream_recommendation
  cases hgp : getProfileById db pid <;> rfl

/-- Closed form of `generate_initial_recommendation`: every path ends in an
error, the fully-authorized one in the DetachedInstanceError inherited from
the delegated `generate_recommendation`. -/
theorem generate_initial_result (env : Env) (db : DB) (uid sid : Nat) :
    generate_initial_recommendation env db uid sid =
      (match getSessionById db sid with
       | none =>
         (.error (.valueError ("Session ".toList ++ natRepr sid ++ " not found".toList)), db)
       | some s =>
         if s.user_id ≠ uid then
           (.error (.valueError ("Session does not belong to user".toList)), db)
         else
           match s.profile_id with
           | none =>
             (.error (.valueError (lit "Cannot generate recommendations: session has no profile attached. Please append a profile first.")), db)
           | some pid =>
             match getProfileById db pid with
             | none =>
               (.error (.valueError ("Profile ".toList ++ intRepr pid ++ " not found".toList)),
                 db)
             | some _ => (.error (.detachedInstanceError detachedInstanceMsg), db)) := by
  unfold generate_initial_recommendation
  cases hgs : getSessionById db sid with
  | none => rfl
  | some s =>
    dsimp only []
    by_cases hu : s.user_id ≠ uid
    · simp only [if_pos hu]
    · simp only [if_neg hu]
      cases hpid : s.profile_id with
      | none => rfl
      | some pid =>
        dsimp only []
        rw [generate_recommendation_result]
        cases hgp : getProfileById db pid <;> rfl

/-- `add_message_metadata_kw` models the call at conversation_service.py:374-380,
which passes the keyword `metadata=` to `add_message` whose parameter is
`message_metadata` (conversation_repository.py, no kwargs catch-all): Python
keyword binding raises TypeError on every such call. -/
theorem add_message_metadata_kw_error (env : Env) (db : DB) (sid : Nat)
    (role content : PyStr) (md : List (PyStr × Json)) :
    add_message_metadata_kw env db sid role content md =
      .error (.typeError addMessageKwMsg) := by
  rfl

/-- C1 (code bug): the claim's atomicity property — a streamed run persists a
Recommendation row only on natural completion — cannot be exhibited by the
code: on every input the store comes back unchanged, and whenever the
requested profile exists the generator raises DetachedInstanceError before
yielding a single chunk (the profile loaded inside `session_scope` is expired
by the closing commit and read detached at recommendation_service.py:193), so
the persist-on-completion branch the claim presupposes is unreachable. -/
theorem c1_stream_detached_no_persistence (env : Env) (db : DB) (pid sid top_k : Nat)
    (ub : Bool) (stream : LLMStream) (consume : Consumption) :
    ((stream_recommendation env db pid sid top_k ub stream consume).2.2 = db)
    ∧ (∀ profile, getProfileById db pid = some profile →
        stream_recommendation env db pid sid top_k ub stream consume =
          ([], .error (.detachedInstanceError detachedInstanceMsg), db)) := by
  constructor
  · rw [stream_recommendation_result]
    cases getProfileById db pid <;> rfl
  · intro profile hgp
    rw [stream_recommendation_result, hgp]

/-- C1 witness: streaming to completion against the fixture store yields no
chunks, the detached-instance error, and an unchanged store. -/
theorem c1_witness :
    stream_recommendation fixtureEnv fixtureDB 1 2 5 true fixtureStream Consumption.toCompletion
      = ([], .error (.detachedInstanceError detachedInstanceMsg), fixtureDB) :=
  (c1_stream_detached_no_persistence fixtureEnv fixtureDB 1 2 5 true fixtureStream
    Consumption.toCompletion).2 fixtureProfile rfl

/-- C2 (code bug): the claimed clean RuntimeError on completion failure cannot
occur: even under a completion collaborator that raises on every call,
`generate_recommendation` leaves the store untouched and, whenever the profile
exists, fails with DetachedInstanceError at the query-construction step
(recommendation_service.py:82 reads the profile expired and detached by
`session_scope`) before the model is ever called; on no input does it produce
the claimed Failed-to-generate-recommendation RuntimeError. -/
theorem c2_detached_before_completion (env : Env) (db : DB) (pid sid top_k : Nat)
    (emsg : PyStr) (_hc : ∀ s u, env.complete s u = .error emsg) :
    ((generate_recommendation env db pid sid top_k true).2 = db)
    ∧ (∀ profile, getProfileById db pid = some profile →
        (generate_recommendation env db pid sid top_k true).1 =
          .error (.detachedInstanceError detachedInstanceMsg))
    ∧ (∀ m, (generate_recommendation env db pid sid top_k true).1 ≠
        .error (.runtimeError ("Failed to generate recommendation: ".toList ++ m))) := by
  refine ⟨?_, ?_, ?_⟩
  · rw [generate_recommendation_result]
    cases getProfileById db pid <;> rfl
  · intro profile hgp
    rw [generate_recommendation_result, hgp]
  · intro m
    rw [generate_recommendation_result]
    cases getProfileById db pid <;> simp

/-- C2 witness: with the always-failing completion fixture, the store is
unchanged and the existing fixture profile triggers the detached error. -/
theorem c2_witness :
    (generate_recommendation fixtureEnvFail fixtureDB 1 2 5 true).2 = fixtureDB
    ∧ (generate_recommendation fixtureEnvFail fixtureDB 1 2 5 true).1 =
        .error (.detachedInstanceError detachedInstanceMsg) :=
  ⟨(c2_detached_before_completion fixtureEnvFail fixtureDB 1 2 5 ("boom".toList)
      (fun _ _ => rfl)).1,
   (c2_detached_before_completion fixtureEnvFail fixtureDB 1 2 5 ("boom".toList)
      (fun _ _ => rfl)).2.1 fixtureProfile rfl⟩

/-- C4 (code bug): the claimed no-candidates ValueError is unreachable: even
under a search collaborator returning no results at any tier,
`generate_recommendation` leaves the store untouched and, whenever the profile
exists, raises DetachedInstanceError before retrieval starts; on no input does
it produce the no-relevant-programs ValueError. -/
theorem c4_detached_before_retrieval (env : Env) (db : DB) (pid sid top_k : Nat)
    (_hs : ∀ q f n, env.search q f n = []) :
    ((generate_recommendation env db pid sid top_k true).2 = db)
    ∧ (∀ profile, getProfileById db pid = some profile →
        (generate_recommendation env db pid sid top_k true).1 =
          .error (.detachedInstanceError detachedInstanceMsg))
    ∧ ((generate_recommendation env db pid sid top_k true).1 ≠
        .error (.valueError ("No relevant programs found for this profile".toList))) := by
  refine ⟨?_, ?_, ?_⟩
  · rw [generate_recommendation_result]
    cases getProfileById db pid <;> rfl
  · intro profile hgp
    rw [generate_recommendation_result, hgp]
  · rw [generate_recommendation_result]
    cases getProfileById db pid with
    | none =>
      intro h
      injection h with h
      injection h with h
      have : 'P' = 'N' := List.head_eq_of_cons_eq h
      exact absurd this (by decide)
    | some profile =>
      intro h
      injection h with h
      cases h

/-- C4 witness: with the no-hit search fixture, the existing fixture profile
triggers the detached error and the store is unchanged. -/
theorem c4_witness :
    (generate_recommendation fixtureEnvNoHits fixtureDB 1 2 5 true).1 =
      .error (.detachedInstanceError detachedInstanceMsg)
    ∧ (generate_recommendation fixtureEnvNoHits fixtureDB 1 2 5 true).2 = fixtureDB :=
  ⟨(c4_detached_before_retrieval fixtureEnvNoHits fixtureDB 1 2 5 (fun _ _ _ => rfl)).2.1
      fixtureProfile rfl,
   (c4_detached_before_retrieval fixtureEnvNoHits fixtureDB 1 2 5 (fun _ _ _ => rfl)).1⟩

/-- C6 (code bug): no `generate_initial_recommendation` call can succeed: the
result is never ok and the store is never changed; on the fully-authorized
path (owned session with an attached, existing profile) the delegated
`generate_recommendation` raises DetachedInstanceError; independently, the
welcome-message append modelled by `add_message_metadata_kw` raises TypeError
on every input, because conversation_service.py:374-380 passes the keyword
`metadata=` to `add_message` whose parameter is `message_metadata` — so the
claimed assistant welcome message tagged recommendation_generated is never
created by this service function. -/
theorem c6_initial_generation_never_succeeds (env : Env) (db : DB) (user_id session_id : Nat) :
    ((generate_initial_recommendation env db user_id session_id).1.isOk = false)
    ∧ ((generate_initial_recommendation env db user_id session_id).2 = db)
    ∧ (∀ s pid profile, getSessionById db session_id = some s → s.user_id = user_id →
        s.profile_id = some pid → getProfileById db pid = some profile →
        (generate_initial_recommendation env db user_id session_id).1 =
          .error (.detachedInstanceError detachedInstanceMsg))
    ∧ (∀ env2 db2 sid2 role content md,
        add_message_metadata_kw env2 db2 sid2 role content md =
          .error (.typeError addMessageKwMsg)) := by
  refine ⟨?_, ?_, ?_, fun env2 db2 sid2 role content md => add_message_metadata_kw_error ..⟩
  · rw [generate_initial_result]
    cases getSessionById db session_id with
    | none => rfl
    | some s =>
      dsimp only []
      split
      · rfl
      · cases s.profile_id with
        | none => rfl
        | some pid =>
          dsimp only []
          cases getProfileById db pid <;> rfl
  · rw [generate_initial_result]
    cases getSessionById db session_id with
    | none => rfl
    | some s =>
      dsimp only []
      split
      · rfl
      · cases s.profile_id with
        | none => rfl
        | some pid =>
          dsimp only []
          cases getProfileById db pid <;> rfl
  · intro s pid profile hgs hu hpid hgp
    rw [generate_initial_result, hgs]
    dsimp only []
    rw [if_neg (fun hne => hne hu), hpid]
    dsimp only []
    rw [hgp]

/-- C6 witness: the fixture session (id 2, owned by user 7, profile 1 present)
exercises the authorized path and ends in the detached-instance error. -/
theorem c6_witness :
    (generate_initial_recommendation fixtureEnv fixtureDB 7 2).1 =
      .error (.detachedInstanceError detachedInstanceMsg) :=
  (c6_initial_generation_never_succeeds fixtureEnv fixtureDB 7 2).2.2.1 fixtureSession 1
    fixtureProfile rfl rfl rfl rfl


end SIRA
